import Mathlib

/-!
# Proxima: a verification development

A shallow embedding of the request-forwarding engine of `internal/proxy`
(`proxy.go`, `security.go`, `geographic.go`, `metrics.go`, `websocket.go`,
`cert.go`) and theorems about it.

Conventions of the embedding.

* Go strings are Lean strings (so they are valid UTF-8); a byte count is a
  character count.
* The `atomic.Int64` counters of `ProxyMetrics` are integers; `Add` is
  addition (a counter that starts at 0 and grows by 1 per request does not
  reach 2^63).
* Everything the outside world decides during one call of `ServeHTTP` (the
  generated request id, whether `http.NewRequest` and `client.Do` fail, what the
  upstream answers, whether `io.Copy` is cut short, the elapsed time, the
  outcome of the WebSocket dial) is an explicit value of type `Env`.
* The functions of the Go standard library that the handlers call on their
  arguments (`http.Header.Get/Set/Add/Del`, `http.ResponseWriter.WriteHeader` and
  `Write` as `net/http` implements them, `http.Error`, `io.Copy`,
  `strings.ToLower`, `strings.Contains`, `strings.Join`) are embedded by what
  they do to those arguments.
* Three library functions are not spelled out but taken as they are, as fields
  of `Env`: the case mapping `unicode.ToLower`, the serialisation
  `(*url.URL).String`, and the parsing of a URL string by `http.NewRequest`.
  What is proved holds whatever these functions are.
-/

namespace Proxima

/-! ## Strings -/

/-- The function `strings.ToLower`: every rune of the string is mapped by
`unicode.ToLower`, which is the parameter `lower`. -/
def toLower (lower : Char → Char) (s : String) : String :=
  String.mk (s.data.map lower)

/-- Does `sub` occur in `s` starting at its first character. -/
def hasPrefixChars : List Char → List Char → Bool
  | [], _ => true
  | _ :: _, [] => false
  | a :: as, b :: bs => a == b && hasPrefixChars as bs

/-- Substring search on character lists. -/
def containsChars : List Char → List Char → Bool
  | [], sub => sub.isEmpty
  | c :: cs, sub => hasPrefixChars sub (c :: cs) || containsChars cs sub

/-- The function `strings.Contains(s, substr)`. -/
def contains (s substr : String) : Bool :=
  containsChars s.data substr.data

/-- The function `strings.Join(elems, sep)`. -/
def join (elems : List String) (sep : String) : String :=
  sep.intercalate elems

/-! ## `http.Header` -/

/-- The token bytes of `textproto` (`validHeaderFieldByte`): the characters a
header name may consist of. -/
def validHeaderFieldByte (c : Char) : Bool :=
  let n := c.toNat
  (48 ≤ n && n ≤ 57) || (65 ≤ n && n ≤ 90) || (97 ≤ n && n ≤ 122) ||
  n == 33 || n == 35 || n == 36 || n == 37 || n == 38 || n == 39 || n == 42 ||
  n == 43 || n == 45 || n == 46 || n == 94 || n == 95 || n == 96 || n == 124 || n == 126

/-- One pass of `textproto.canonicalMIMEHeaderKey`: the first letter and every
letter after a hyphen in upper case, the others in lower case. -/
def canonicalChars : Bool → List Char → List Char
  | _, [] => []
  | upper, c :: cs =>
    (if upper && c.isLower then c.toUpper
     else if !upper && c.isUpper then c.toLower else c) :: canonicalChars (c == '-') cs

/-- The function `textproto.CanonicalMIMEHeaderKey`: a name holding a byte that is
not a token byte is returned unchanged. -/
def CanonicalMIMEHeaderKey (s : String) : String :=
  if s.data.all validHeaderFieldByte then String.mk (canonicalChars true s.data) else s

/-- The type `http.Header`, a `map[string][]string`, as an association list. -/
abbrev Header := List (String × List String)

namespace Header

/-- The map read `h[key]`; a missing key reads as the nil slice. -/
def index (h : Header) (key : String) : List String :=
  match h.lookup key with
  | some vs => vs
  | none => []

/-- The map write `h[key] = vs`. -/
def assign (h : Header) (key : String) (vs : List String) : Header :=
  (key, vs) :: h.filter (fun e => e.1 != key)

/-- The method `Header.Values`. -/
def Values (h : Header) (key : String) : List String :=
  h.index (CanonicalMIMEHeaderKey key)

/-- The method `Header.Get`: the first value of the key, or the empty string. -/
def Get (h : Header) (key : String) : String :=
  match h.index (CanonicalMIMEHeaderKey key) with
  | [] => ""
  | v :: _ => v

/-- The method `Header.Set`. -/
def Set (h : Header) (key value : String) : Header :=
  h.assign (CanonicalMIMEHeaderKey key) [value]

/-- The method `Header.Add`. -/
def Add (h : Header) (key value : String) : Header :=
  h.assign (CanonicalMIMEHeaderKey key) (h.index (CanonicalMIMEHeaderKey key) ++ [value])

/-- The method `Header.Del`. -/
def Del (h : Header) (key : String) : Header :=
  h.filter (fun e => e.1 != CanonicalMIMEHeaderKey key)

/-- The loop `for header, values := range src { for _, value := range values {
dst.Add(header, value) } }`. -/
def addAll (dst src : Header) : Header :=
  src.foldl (fun acc e => e.2.foldl (fun a v => a.Add e.1 v) acc) dst

/-- The values that the entries of `src` put under the key `k` when they are
added one by one. -/
def contributed (src : Header) (k : String) : List String :=
  (src.filter (fun e => CanonicalMIMEHeaderKey e.1 == k)).flatMap (fun e => e.2)

/-- A header map as the HTTP server delivers it: the keys are canonical and,
being keys of a map, pairwise distinct. -/
def Canonical (h : Header) : Prop :=
  (∀ e ∈ h, CanonicalMIMEHeaderKey e.1 = e.1) ∧ (h.map Prod.fst).Nodup

instance (h : Header) : Decidable (Canonical h) := by
  unfold Canonical; infer_instance

end Header

/-! ## Data model -/

/-- The fields of `url.URL`. -/
structure URL where
  Scheme : String := ""
  Opaque : String := ""
  User : Option String := none
  Host : String := ""
  Path : String := ""
  RawPath : String := ""
  OmitHost : Bool := false
  ForceQuery : Bool := false
  RawQuery : String := ""
  Fragment : String := ""
  RawFragment : String := ""
deriving DecidableEq, Repr

/-- The inbound `*http.Request`, as far as the handlers read it. -/
structure Request where
  Method : String
  URL : URL
  Header : Header
  Body : String
  Host : String
  RemoteAddr : String
deriving DecidableEq, Repr

/-- The outbound request `proxyReq` made by `http.NewRequest(method, url, body)`.
`URL` is what `http.NewRequest` has parsed from the string `url`. -/
structure OutRequest where
  Method : String
  URL : URL
  Header : Header
  Body : String
deriving DecidableEq, Repr

/-- The `*http.Response` of the upstream. -/
structure Response where
  StatusCode : Int
  Header : Header
  Body : String
deriving DecidableEq, Repr

/-- The struct `ProxyMetrics`. -/
structure ProxyMetrics where
  RequestCount : Int := 0
  ResponseCount : Int := 0
  ErrorCount : Int := 0
  LatencyMs : Int := 0
deriving DecidableEq, Repr

/-- The struct `GeoConfig`. -/
structure GeoConfig where
  CountryCode : String
  ForwardedIP : String
deriving DecidableEq, Repr

/-- The struct `Proxy`: the HTTP client is represented by its timeout in
seconds; the counters are passed along separately as the state. -/
structure Proxy where
  clientTimeout : Nat
  target : URL
  geoConfig : GeoConfig
deriving DecidableEq, Repr

/-- The `http.ResponseWriter` of `net/http`, by what it has been given and has
taken: the header map, the `1xx` status codes sent ahead of the response, the
status of the response (`none` as long as none has been written; the server
sends 200 if the handler returns without one), the bytes of the body it has
taken, and whether a call of `WriteHeader` on it has panicked. -/
structure ResponseWriter where
  header : Header := []
  informational : List Int := []
  status : Option Int := none
  body : String := ""
  panicked : Bool := false
deriving DecidableEq, Repr

/-- One record written to the logger: level and message. -/
structure LogEntry where
  level : String
  msg : String
deriving DecidableEq, Repr

/-- The error of `upgrader.Upgrade`: its text and, when the upgrader has answered
the client itself (`Upgrader.returnError`), the status code and the status text
of its answer. -/
structure UpgradeError where
  text : String
  reply : Option (Int × String)
deriving DecidableEq, Repr

/-- What lies outside the repository during one call of `ServeHTTP`: three
library functions, and what the calls into the outside world return. -/
structure Env where
  /-- The function `unicode.ToLower`. -/
  unicodeToLower : Char → Char
  /-- The method `(*url.URL).String`. -/
  URLString : URL → String
  /-- The URL that `http.NewRequest` puts on the request it returns for a URL
  string (it parses the string with `url.Parse`). -/
  requestURL : String → URL
  /-- The value of `uuid.New().String()`. -/
  requestID : String
  /-- The error of `http.NewRequest`, if it fails. -/
  newRequestErr : Option String
  /-- The result of `p.client.Do(proxyReq)`. -/
  doResult : Except String Response
  /-- When `io.Copy` fails: the bytes written before the error, and the error. -/
  copyErr : Option (Nat × String)
  /-- The value of `time.Since(start).Milliseconds()`. -/
  latencyMs : Int
  /-- When `websocket.DefaultDialer.Dial` fails: the error and the status code of
  the upstream response, if there is one. -/
  dialErr : Option (String × Option Int)
  /-- The error of `upgrader.Upgrade`, if it fails. -/
  upgradeErr : Option UpgradeError

/-- The branch on which a call of `ServeHTTP` returned. -/
inductive Route where
  | preflight
  | constructFailed
  | webSocket
  | sendFailed
  | proxied
  /-- The call did not return: `w.WriteHeader` panicked at `proxy.go:132`. -/
  | panicked
deriving DecidableEq, Repr

/-- Everything a call of `ServeHTTP` leaves behind. -/
structure Outcome where
  metrics : ProxyMetrics
  w : ResponseWriter
  route : Route
  /-- The outbound request, once `http.NewRequest` has made it and the headers
  have been put on it. -/
  proxyReq : Option OutRequest := none
  /-- The requests handed to `p.client.Do`, in order. -/
  dispatched : List OutRequest := []
  /-- The URL string and header of every `websocket.DefaultDialer.Dial`, in order. -/
  dialed : List (String × Header) := []
  /-- Whether both WebSocket connections were established. -/
  tunnel : Bool := false
  logs : List LogEntry := []
deriving Repr

/-! ## `geographic.go` -/

/-- The table `countryToIP`. -/
def countryToIP : List (String × String) :=
  [("US", "204.79.197.200"), ("GB", "176.227.219.0"), ("JP", "103.152.220.0"),
   ("DE", "85.214.132.117"), ("FR", "91.189.92.20"), ("CA", "99.79.177.77"),
   ("AU", "1.1.1.1"), ("BR", "200.160.2.3")]

/-- The function `getForwardedIP`. -/
def getForwardedIP (countryCode : String) : String :=
  match countryToIP.lookup countryCode with
  | some ip => ip
  | none => ""

/-- The table `countryToLanguage`. -/
def countryToLanguage : List (String × String) :=
  [("US", "en-US,en;q=0.9"), ("GB", "en-GB,en;q=0.9"), ("JP", "ja-JP,ja;q=0.9,en;q=0.8"),
   ("DE", "de-DE,de;q=0.9,en;q=0.8"), ("FR", "fr-FR,fr;q=0.9,en;q=0.8")]

/-- The function `getLanguageForCountry`. -/
def getLanguageForCountry (countryCode : String) : String :=
  match countryToLanguage.lookup countryCode with
  | some lang => lang
  | none => "en-US,en;q=0.9"

/-! ## `security.go` -/

/-- The constant `http.StatusNoContent`. -/
def StatusNoContent : Int := 204

/-- The constant `http.StatusBadGateway`. -/
def StatusBadGateway : Int := 502

/-- The constant `http.MethodOptions`. -/
def MethodOptions : String := "OPTIONS"

/-- The field `defaultSecurityHeaders.AllowedMethods`. -/
def AllowedMethods : List String :=
  ["GET", "POST", "PUT", "DELETE", "OPTIONS", "HEAD", "PATCH"]

/-- The field `defaultSecurityHeaders.AllowedHeaders`. -/
def AllowedHeaders : List String :=
  ["Accept", "Accept-Encoding", "Accept-Language", "Authorization", "Content-Length",
   "Content-Type", "Cookie", "Origin", "User-Agent", "X-Requested-With", "X-Request-ID",
   "X-Forwarded-For", "X-Real-IP", "Cache-Control", "If-Match", "If-None-Match",
   "If-Modified-Since", "If-Unmodified-Since", "Range", "X-YouTube-Client-Name",
   "X-YouTube-Client-Version", "X-Client-Data"]

/-- The constant `http.StatusSwitchingProtocols`. -/
def StatusSwitchingProtocols : Int := 101

/-- The constant `http.StatusOK`. -/
def StatusOK : Int := 200

/-- The method `WriteHeader` of the response writer of `net/http`. A call after
the status has been written does nothing. Otherwise a code below 100 or above
999 makes it panic (`checkWriteHeaderCode`); a `1xx` code other than 101 is sent
ahead as an informational header and leaves the status open; any other code
becomes the status of the response. -/
def ResponseWriter.WriteHeader (w : ResponseWriter) (code : Int) : ResponseWriter :=
  match w.status with
  | some _ => w
  | none =>
    if code < 100 ∨ code > 999 then { w with panicked := true }
    else if code ≤ 199 ∧ code ≠ StatusSwitchingProtocols then
      { w with informational := w.informational ++ [code] }
    else { w with status := some code }

/-- A status code that `WriteHeader` takes as the status of the response: 101, or
a code from 200 to 999. -/
def finalStatus (code : Int) : Prop :=
  code = 101 ∨ (200 ≤ code ∧ code ≤ 999)

instance (code : Int) : Decidable (finalStatus code) := by
  unfold finalStatus; infer_instance

/-- Whether the call `w.WriteHeader(code)` panics: no status has been written yet
and the code is below 100 or above 999. -/
def ResponseWriter.WriteHeaderPanics (w : ResponseWriter) (code : Int) : Bool :=
  match w.status with
  | some _ => false
  | none => decide (code < 100 ∨ code > 999)

/-- The function `bodyAllowedForStatus` of `net/http`: no body goes with a `1xx`,
a 204 or a 304. -/
def bodyAllowedForStatus (status : Int) : Bool :=
  if 100 ≤ status ∧ status ≤ 199 then false
  else if status = 204 then false
  else if status = 304 then false
  else true

/-- Whether the writer takes body bytes: the status it has, or the 200 that a
first write sends, allows a body. -/
def ResponseWriter.bodyAllowed (w : ResponseWriter) : Bool :=
  match w.status with
  | some status => bodyAllowedForStatus status
  | none => true

/-- The method `Write` of the response writer of `net/http`: a write before any
status sends 200; the bytes are taken when there are any and the status allows a
body, and refused (`http.ErrBodyNotAllowed`) when it does not. -/
def ResponseWriter.Write (w : ResponseWriter) (data : String) : ResponseWriter :=
  let w1 := w.WriteHeader StatusOK
  if data = "" then w1
  else if w1.bodyAllowed then { w1 with body := w1.body ++ data }
  else w1

/-- The function `http.Error`: plain-text content type, the status, and the
message written as a line (`fmt.Fprintln`). When `WriteHeader` panics nothing is
written. -/
def httpError (w : ResponseWriter) (error : String) (code : Int) : ResponseWriter :=
  let h := Header.Del w.header "Content-Length"
  let h := Header.Set h "Content-Type" "text/plain; charset=utf-8"
  let h := Header.Set h "X-Content-Type-Options" "nosniff"
  let w : ResponseWriter := { w with header := h }
  if w.WriteHeaderPanics code then w.WriteHeader code
  else (w.WriteHeader code).Write (error ++ "\n")

/-- The function `io.Copy(w, body)`, called when the status has been written: the
whole body is written, or, when the copy fails, what went through before the
error (nothing is written when there is nothing to write); when the status
allows no body the first write is refused and that is the error. (The transport
never delivers a body longer than the `Content-Length` it delivers with it, so
a write is not refused for exceeding it.) Returns the writer, the byte count
and the error. -/
def ioCopy (w : ResponseWriter) (body : String) (copyErr : Option (Nat × String)) :
    ResponseWriter × Nat × Option String :=
  match copyErr with
  | none =>
    if body = "" then (w, 0, none)
    else if w.bodyAllowed then (w.Write body, body.length, none)
    else (w.Write body, 0, some "http: request method or response status code does not allow body")
  | some (n, err) =>
    let part := String.mk (body.data.take n)
    if part = "" then (w, 0, some err)
    else if w.bodyAllowed then (w.Write part, part.length, some err)
    else (w.Write part, 0, some "http: request method or response status code does not allow body")

/-- The method `Proxy.setSecurityHeaders`. -/
def setSecurityHeaders (w : ResponseWriter) (r : Request) : ResponseWriter :=
  let origin := Header.Get r.Header "Origin"
  let origin := if origin = "" then "*" else origin
  -- Set basic security headers
  let h := Header.Set w.header "Access-Control-Allow-Origin" origin
  let h := Header.Set h "Access-Control-Allow-Methods" (join AllowedMethods ", ")
  let h := Header.Set h "Access-Control-Allow-Headers" (join AllowedHeaders ", ")
  let h := Header.Set h "Access-Control-Allow-Credentials" "true"
  let h := Header.Set h "Access-Control-Max-Age" "3600"
  -- Additional security headers
  let h := Header.Set h "X-Content-Type-Options" "nosniff"
  let h := Header.Set h "X-Frame-Options" "SAMEORIGIN"
  let h := Header.Set h "X-XSS-Protection" "1; mode=block"
  let h := Header.Set h "Referrer-Policy" "strict-origin-when-cross-origin"
  -- Content Security Policy
  let h := Header.Set h "Content-Security-Policy" (join
    ["default-src 'self' * data: blob: 'unsafe-inline' 'unsafe-eval'",
     "img-src 'self' * data: blob:",
     "media-src 'self' * blob:",
     "font-src 'self' * data:",
     "connect-src 'self' *"] "; ")
  { w with header := h }

/-- The method `Proxy.handlePreflight`: the writer afterwards and the returned flag. -/
def handlePreflight (w : ResponseWriter) (r : Request) : ResponseWriter × Bool :=
  if r.Method = MethodOptions then
    ((setSecurityHeaders w r).WriteHeader StatusNoContent, true)
  else
    (w, false)

/-! ## `websocket.go`: the handshake -/

/-- The part of `Outcome` that `handleWebSocket` decides. -/
structure WebSocketOutcome where
  w : ResponseWriter
  dialed : String × Header
  tunnel : Bool
  logs : List LogEntry
deriving Repr

/-- The value `targetURL` that `handleWebSocket` builds; its `String()` is what is
dialled. -/
def webSocketURL (p : Proxy) (r : Request) : URL :=
  let targetURL : URL := { Scheme := "wss", Host := p.target.Host, Path := r.URL.Path }
  if r.URL.RawQuery ≠ "" then { targetURL with RawQuery := r.URL.RawQuery } else targetURL

/-- The method `Proxy.handleWebSocket`, up to the start of the two pumps. When both
connections are established the session runs (see `pumpMessages`) and the
handler returns after it. When `upgrader.Upgrade` fails before it has taken
over the connection, it answers the client itself: it sets
`Sec-Websocket-Version: 13` and calls `http.Error` with the status text. -/
def handleWebSocket (p : Proxy) (env : Env) (w : ResponseWriter) (r : Request)
    (proxyReq : OutRequest) : WebSocketOutcome :=
  -- Create target URL
  let targetURL := webSocketURL p r
  let logs : List LogEntry := [⟨"info", "initiating websocket connection"⟩]
  -- Connect to upstream
  match env.dialErr with
  | some (_, resp) =>
    let statusCode := match resp with
      | some code => code
      | none => StatusBadGateway
    { w := httpError w "WebSocket connection failed" statusCode
      dialed := (env.URLString targetURL, proxyReq.Header)
      tunnel := false
      logs := logs ++ [⟨"error", "failed to connect to upstream websocket"⟩] }
  | none =>
    -- Upgrade client connection
    match env.upgradeErr with
    | some err =>
      { w := match err.reply with
          | some (status, statusText) =>
            httpError { w with header := Header.Set w.header "Sec-Websocket-Version" "13" }
              statusText status
          | none => w
        dialed := (env.URLString targetURL, proxyReq.Header)
        tunnel := false
        logs := logs ++ [⟨"error", "failed to upgrade client connection"⟩] }
    | none =>
      { w := w
        dialed := (env.URLString targetURL, proxyReq.Header)
        tunnel := true
        logs := logs ++ [⟨"info", "websocket connection closed"⟩] }

/-! ## `proxy.go` -/

/-- The function `NewProxy`; `urlParse` is `url.Parse`. -/
def NewProxy (urlParse : String → Except String URL) (targetURL : String)
    (countryCode : String) : Except String Proxy :=
  match urlParse targetURL with
  | .error err => .error err
  | .ok target =>
    let geoConfig : GeoConfig :=
      { CountryCode := countryCode, ForwardedIP := getForwardedIP countryCode }
    .ok { clientTimeout := 60, target := target, geoConfig := geoConfig }

/-- The function `isWebSocketRequest`; `lower` is `unicode.ToLower`. -/
def isWebSocketRequest (lower : Char → Char) (r : Request) : Bool :=
  toLower lower (Header.Get r.Header "Upgrade") == "websocket" &&
    contains (toLower lower (Header.Get r.Header "Connection")) "upgrade"

/-- The method `Proxy.ServeHTTP`: `m` holds the counters before the call, `w` is the
response writer the server hands in. `http.NewRequest` is given the string
`targetURL.String()` and parses it again; the URL of `proxyReq` is what it has
parsed. A panic of `w.WriteHeader` ends the call where it happens. -/
def ServeHTTP (p : Proxy) (env : Env) (m : ProxyMetrics) (w : ResponseWriter)
    (r : Request) : Outcome :=
  -- Handle CORS preflight
  match handlePreflight w r with
  | (w, true) => { metrics := m, w := w, route := .preflight }
  | (w, false) =>
    -- Set security headers for all responses
    let w := setSecurityHeaders w r
    let requestID := env.requestID
    let m := { m with RequestCount := m.RequestCount + 1 }
    let logs : List LogEntry := [⟨"info", "received request"⟩]
    -- Create the proxy request URL
    let targetURL : URL := { p.target with Path := r.URL.Path, RawQuery := r.URL.RawQuery }
    -- Create proxy request
    match env.newRequestErr with
    | some err =>
      { metrics := { m with ErrorCount := m.ErrorCount + 1 }
        w := httpError w err StatusBadGateway
        route := .constructFailed
        logs := logs ++ [⟨"error", "failed to create proxy request"⟩] }
    | none =>
      let method := if r.Method = "" then "GET" else r.Method
      -- Copy original headers
      let h := Header.addAll [] r.Header
      -- Add or modify important headers
      let h := Header.Set h "X-Request-ID" requestID
      let h := Header.Set h "X-Forwarded-For" r.RemoteAddr
      let h := Header.Set h "X-Forwarded-Proto" r.URL.Scheme
      let h := Header.Set h "X-Forwarded-Host" r.Host
      -- Handle geo-location headers
      let h :=
        if p.geoConfig.ForwardedIP ≠ "" then
          let h := Header.Set h "X-Real-IP" p.geoConfig.ForwardedIP
          let h := Header.Set h "CF-Connecting-IP" p.geoConfig.ForwardedIP
          if p.geoConfig.CountryCode ≠ "" then
            let h := Header.Set h "CF-IPCountry" p.geoConfig.CountryCode
            Header.Set h "Accept-Language" (getLanguageForCountry p.geoConfig.CountryCode)
          else h
        else h
      -- Set Origin header if needed
      let h :=
        if Header.Get r.Header "Origin" = "" then
          Header.Set h "Origin" (targetURL.Scheme ++ "://" ++ targetURL.Host)
        else h
      let proxyReq : OutRequest :=
        { Method := method, URL := env.requestURL (env.URLString targetURL), Header := h
          Body := r.Body }
      -- Handle WebSocket upgrade
      if isWebSocketRequest env.unicodeToLower r then
        let ws := handleWebSocket p env w r proxyReq
        { metrics := m, w := ws.w, route := .webSocket, proxyReq := some proxyReq
          dialed := [ws.dialed], tunnel := ws.tunnel, logs := logs ++ ws.logs }
      else
        -- Send request
        match env.doResult with
        | .error err =>
          { metrics := { m with ErrorCount := m.ErrorCount + 1 }
            w := httpError w err StatusBadGateway
            route := .sendFailed
            proxyReq := some proxyReq
            dispatched := [proxyReq]
            logs := logs ++ [⟨"error", "failed to send proxy request"⟩] }
        | .ok resp =>
          -- Copy response headers
          let w : ResponseWriter := { w with header := Header.addAll w.header resp.Header }
          if w.WriteHeaderPanics resp.StatusCode then
            -- the panic ends the call here
            { metrics := m, w := w.WriteHeader resp.StatusCode, route := .panicked
              proxyReq := some proxyReq
              dispatched := [proxyReq]
              logs := logs }
          else
            let w := w.WriteHeader resp.StatusCode
            -- Copy response body
            let (w, _copied, err) := ioCopy w resp.Body env.copyErr
            let logs := match err with
              | some _ => logs ++ [⟨"error", "error copying response"⟩]
              | none => logs
            let m := { m with ResponseCount := m.ResponseCount + 1 }
            let latency := env.latencyMs
            let m := { m with LatencyMs := m.LatencyMs + latency }
            { metrics := m, w := w, route := .proxied, proxyReq := some proxyReq
              dispatched := [proxyReq]
              logs := logs ++ [⟨"info", "completed request"⟩] }

/-- A name for the outbound request as `ServeHTTP` has it when it comes to the
WebSocket check (`proxy.go`, lines 67 to 107): the request made by
`http.NewRequest` with the headers put on it. -/
def outboundRequest (p : Proxy) (env : Env) (r : Request) : OutRequest :=
  let targetURL : URL := { p.target with Path := r.URL.Path, RawQuery := r.URL.RawQuery }
  let h := Header.addAll [] r.Header
  let h := Header.Set h "X-Request-ID" env.requestID
  let h := Header.Set h "X-Forwarded-For" r.RemoteAddr
  let h := Header.Set h "X-Forwarded-Proto" r.URL.Scheme
  let h := Header.Set h "X-Forwarded-Host" r.Host
  let h :=
    if p.geoConfig.ForwardedIP ≠ "" then
      let h := Header.Set h "X-Real-IP" p.geoConfig.ForwardedIP
      let h := Header.Set h "CF-Connecting-IP" p.geoConfig.ForwardedIP
      if p.geoConfig.CountryCode ≠ "" then
        let h := Header.Set h "CF-IPCountry" p.geoConfig.CountryCode
        Header.Set h "Accept-Language" (getLanguageForCountry p.geoConfig.CountryCode)
      else h
    else h
  let h :=
    if Header.Get r.Header "Origin" = "" then
      Header.Set h "Origin" (targetURL.Scheme ++ "://" ++ targetURL.Host)
    else h
  { Method := if r.Method = "" then "GET" else r.Method
    URL := env.requestURL (env.URLString targetURL), Header := h, Body := r.Body }

/-- A fresh `ProxyMetrics`, as `NewProxy` makes it: all counters 0. -/
def freshMetrics : ProxyMetrics := {}

/-- The response writer at the start of a request: nothing set, nothing written. -/
def freshWriter : ResponseWriter := {}

/-- The counters after the requests of a sequence have been served one after the
other, each with its own environment and a fresh response writer. -/
def serveAll (p : Proxy) (m : ProxyMetrics) : List (Env × Request) → ProxyMetrics
  | [] => m
  | (env, r) :: rest => serveAll p (ServeHTTP p env m freshWriter r).metrics rest

/-! ## `websocket.go`: the pump -/

/-- One WebSocket message: type and payload. -/
structure Message where
  messageType : Int
  data : String
deriving DecidableEq, Repr

/-- An error of a WebSocket connection: its text and, when it is a
`*websocket.CloseError`, the close code. -/
structure ConnError where
  text : String
  closeCode : Option Int
deriving DecidableEq, Repr

/-- The constant `websocket.CloseGoingAway`. -/
def CloseGoingAway : Int := 1001

/-- The constant `websocket.CloseAbnormalClosure`. -/
def CloseAbnormalClosure : Int := 1006

/-- The function `websocket.IsUnexpectedCloseError`: a close error whose code is
not among the expected ones. -/
def IsUnexpectedCloseError (err : ConnError) (expectedCodes : List Int) : Bool :=
  match err.closeCode with
  | some code => !expectedCodes.contains code
  | none => false

/-- A `*websocket.Conn` as `pumpMessages` meets it: what the `i`-th call of
`ReadMessage` returns, and the error, if any, of the `i`-th call of
`WriteMessage` on the message it is given (calls are numbered from 0). -/
structure Conn where
  ReadMessage : Nat → Except ConnError Message
  WriteMessage : Nat → Message → Option ConnError

/-- What a run of `pumpMessages` leaves behind: the returned error (`none` is
`nil`), the messages handed to `dst.WriteMessage` in order, the number of calls
of `src.ReadMessage`, and the log. -/
structure PumpResult where
  err : Option ConnError
  written : List Message
  reads : Nat
  logs : List LogEntry
deriving DecidableEq, Repr

/-- The loop of `pumpMessages` from its `i`-th iteration on, `written` and `logs`
being what the iterations before it have produced. The Go loop has no bound;
here it gives up (`none`) after `fuel` iterations. -/
def pumpLoop (src dst : Conn) : Nat → Nat → List Message → List LogEntry → Option PumpResult
  | 0, _, _, _ => none
  | fuel + 1, i, written, logs =>
    match src.ReadMessage i with
    | .error err =>
      let logs :=
        if IsUnexpectedCloseError err [CloseGoingAway, CloseAbnormalClosure] then
          logs ++ [⟨"error", "unexpected websocket close"⟩]
        else logs
      some { err := some err, written := written, reads := i + 1, logs := logs }
    | .ok message =>
      let logs := logs ++ [⟨"debug", "websocket message"⟩]
      match dst.WriteMessage i message with
      | some err =>
        some { err := some err, written := written ++ [message], reads := i + 1
               logs := logs ++ [⟨"error", "failed to write websocket message"⟩] }
      | none => pumpLoop src dst fuel (i + 1) (written ++ [message]) logs

/-- The method `Proxy.pumpMessages`, run for at most `fuel` iterations. -/
def pumpMessages (src dst : Conn) (fuel : Nat) : Option PumpResult :=
  pumpLoop src dst fuel 0 [] []

/-! ## `cert.go` -/

/-- A point in time (`time.Time`), in nanoseconds. -/
abbrev Time := Int

/-- The constant `time.Hour`, in nanoseconds (`time.Duration`). -/
def Hour : Int := 3600 * 1000000000

/-- An address (`net.IP`): its bytes. -/
abbrev IP := List Nat

/-- The fields of `x509.Certificate` that `GenerateSelfSignedCert` sets. -/
structure Certificate where
  SerialNumber : Int
  Organization : List String
  NotBefore : Time
  NotAfter : Time
  KeyUsage : Nat
  ExtKeyUsage : List Nat
  BasicConstraintsValid : Bool
  IPAddresses : List IP := []
  DNSNames : List String := []
deriving DecidableEq, Repr

/-- The constant `x509.KeyUsageDigitalSignature`. -/
def KeyUsageDigitalSignature : Nat := 1

/-- The constant `x509.KeyUsageKeyEncipherment`. -/
def KeyUsageKeyEncipherment : Nat := 4

/-- The constant `x509.ExtKeyUsageServerAuth`. -/
def ExtKeyUsageServerAuth : Nat := 1

/-- What the outside world does during one call of `GenerateSelfSignedCert`. -/
structure CertEnv where
  /-- The error of `ecdsa.GenerateKey`, if it fails. -/
  generateKeyErr : Option String
  /-- What `time.Now()` returns when `NotBefore` is computed. -/
  now1 : Time
  /-- What `time.Now()` returns when `NotAfter` is computed. -/
  now2 : Time
  /-- The error of `x509.CreateCertificate`, if it fails. -/
  createErr : Option String
  /-- The error of `x509.MarshalPKCS8PrivateKey`, if it fails. -/
  marshalErr : Option String
  /-- The error of `tls.X509KeyPair`, if it fails. -/
  keyPairErr : Option String
deriving Repr

/-- The constant `time.Second`, in nanoseconds. -/
def Second : Int := 1000000000

/-- The method `net.IP.To4`: the 4-byte form of an IPv4 address, given in 4 bytes
or in the 16 bytes of an IPv4-mapped address; `none` (nil) for any other
address. -/
def To4 (ip : IP) : Option IP :=
  match ip with
  | [a, b, c, d] => some [a, b, c, d]
  | [0, 0, 0, 0, 0, 0, 0, 0, 0, 0, 255, 255, a, b, c, d] => some [a, b, c, d]
  | _ => none

/-- The certificate that `x509.CreateCertificate` encodes from a template, as it
is read back from the encoding: the validity times are written in whole
seconds (the fraction of a second is dropped), an IPv4 address is written in
its 4-byte form, and the other fields are those of the template. -/
def encodedCertificate (template : Certificate) : Certificate :=
  { template with
    NotBefore := template.NotBefore - template.NotBefore % Second
    NotAfter := template.NotAfter - template.NotAfter % Second
    IPAddresses := template.IPAddresses.map (fun ip =>
      match To4 ip with
      | some v4 => v4
      | none => ip) }

/-- What a successful call of `GenerateSelfSignedCert` has made: the template it
has handed to `x509.CreateCertificate`, and the certificate in the
`tls.Certificate` it returns. -/
structure SelfSigned where
  template : Certificate
  leaf : Certificate
deriving DecidableEq, Repr

/-- The function `GenerateSelfSignedCert`; `parseIP` is `net.ParseIP` (`none` is the
nil address). -/
def GenerateSelfSignedCert (parseIP : String → Option IP) (env : CertEnv)
    (domain : String) : Except String SelfSigned :=
  -- Generate private key
  match env.generateKeyErr with
  | some err => .error err
  | none =>
    -- Create certificate template
    let template : Certificate :=
      { SerialNumber := 1
        Organization := ["Proxima Local Development"]
        NotBefore := env.now1
        NotAfter := env.now2 + 24 * Hour
        KeyUsage := KeyUsageKeyEncipherment ||| KeyUsageDigitalSignature
        ExtKeyUsage := [ExtKeyUsageServerAuth]
        BasicConstraintsValid := true }
    -- Add domain to certificate
    let template :=
      match parseIP domain with
      | some ip => { template with IPAddresses := template.IPAddresses ++ [ip] }
      | none => { template with DNSNames := template.DNSNames ++ [domain] }
    -- Create certificate
    match env.createErr with
    | some err => .error err
    | none =>
      -- Encode certificate and private key
      match env.marshalErr with
      | some err => .error err
      | none =>
        -- Create TLS certificate
        match env.keyPairErr with
        | some err => .error err
        | none => .ok { template := template, leaf := encodedCertificate template }

/-! ## The wording of the specification -/

/-- The number of requests of a sequence that are not `OPTIONS` preflights. -/
def nonPreflight (reqs : List (Env × Request)) : Nat :=
  (reqs.filter (fun er => er.2.Method ≠ MethodOptions)).length

/-- Two character sequences are equal ignoring case: they have the same length
and, position by position, the same letter up to case, that is, two letters
with the same lower-case form (`lower` is `unicode.ToLower`). -/
def equalIgnoringCase (lower : Char → Char) : List Char → List Char → Bool
  | [], [] => true
  | a :: as, b :: bs => lower a == lower b && equalIgnoringCase lower as bs
  | _, _ => false

/-- The sequence `s` contains `sub` ignoring case: some stretch of `s` equals
`sub` ignoring case. -/
def containsIgnoringCase (lower : Char → Char) (s sub : List Char) : Prop :=
  ∃ before mid rest, s = before ++ mid ++ rest ∧ equalIgnoringCase lower mid sub = true

/-- The upgrade predicate of the specification: the `Upgrade` header equals
`websocket` ignoring case and the `Connection` header contains `upgrade`
ignoring case. -/
def upgradePredicate (lower : Char → Char) (r : Request) : Prop :=
  equalIgnoringCase lower (Header.Get r.Header "Upgrade").data "websocket".data = true ∧
    containsIgnoringCase lower (Header.Get r.Header "Connection").data "upgrade".data

/-! ## Example inputs -/

/-- A proxy in front of `http://localhost:3000`, configured for country `US`. -/
def exampleProxy : Proxy :=
  { clientTimeout := 60
    target := { Scheme := "http", Host := "localhost:3000" }
    geoConfig := { CountryCode := "US", ForwardedIP := getForwardedIP "US" } }

/-- The request `GET /foo?x=1`. -/
def exampleGet : Request :=
  { Method := "GET"
    URL := { Path := "/foo", RawQuery := "x=1" }
    Header := [("Accept", ["*/*"])]
    Body := ""
    Host := "proxy.example.com"
    RemoteAddr := "198.51.100.7:40312" }

/-- The upstream answer `200` with body `hello`. -/
def exampleResponse : Response :=
  { StatusCode := 200, Header := [("Content-Type", ["text/plain"])], Body := "hello" }

/-- A stand-in for `unicode.ToLower` that knows the ASCII letters and the Kelvin
sign (U+212A, whose lower-case form is `k`). -/
def exampleToLower (c : Char) : Char :=
  if c.toNat = 8490 then 'k' else c.toLower

/-- A stand-in for `(*url.URL).String` on a URL with a scheme and a host in which
nothing needs escaping: `scheme://host/path?query#fragment`. -/
def exampleURLString (u : URL) : String :=
  u.Scheme ++ "://" ++ u.Host ++ u.Path ++
    (if u.ForceQuery ∨ u.RawQuery ≠ "" then "?" ++ u.RawQuery else "") ++
    (if u.Fragment ≠ "" then "#" ++ u.Fragment else "")

/-- The characters before the first `c`, and those after it when there is one. -/
def cut (c : Char) : List Char → List Char × Option (List Char)
  | [] => ([], none)
  | x :: xs =>
    if x = c then ([], some xs)
    else ((x :: (cut c xs).1), (cut c xs).2)

/-- A stand-in for `url.Parse` on a string of the form
`scheme://host/path?query#fragment` without escapes: as `url.Parse` does, it
splits off the fragment at the first `#`, then the scheme at the first `:`, then
the query at the first `?`, and takes the host up to the next `/`. -/
def exampleURLParse (s : String) : URL :=
  let (rest, fragment) := cut '#' s.data
  let (scheme, rest) := cut ':' rest
  let (rest, query) := cut '?' (rest.getD [])
  let (host, path) := cut '/' (rest.drop 2)
  { Scheme := String.mk scheme
    Host := String.mk host
    Path := match path with
      | some p => String.mk ('/' :: p)
      | none => ""
    RawQuery := String.mk (query.getD [])
    Fragment := String.mk (fragment.getD []) }

/-- An environment in which everything succeeds and the upstream answers
`exampleResponse`. -/
def exampleEnv : Env :=
  { unicodeToLower := exampleToLower
    URLString := exampleURLString
    requestURL := exampleURLParse
    requestID := "5f0c2d0e-8a53-4c0b-9d5e-0c1a2b3c4d5e"
    newRequestErr := none
    doResult := .ok exampleResponse
    copyErr := none
    latencyMs := 12
    dialErr := none
    upgradeErr := none }

/-- As `exampleEnv`, but the client goes away after two bytes of the body. -/
def cutEnv : Env :=
  { exampleEnv with copyErr := some (2, "write tcp: broken pipe") }

/-- As `exampleEnv`, but the upstream cannot be reached. -/
def refusedEnv : Env :=
  { exampleEnv with doResult := .error "dial tcp 127.0.0.1:3000: connect: connection refused" }

/-- An `OPTIONS` preflight carrying `Origin: https://app.example`. -/
def examplePreflight : Request :=
  { exampleGet with Method := "OPTIONS", Header := [("Origin", ["https://app.example"])] }

/-- A proxy configured for `ZZ`, a country code without an entry in the tables. -/
def unconfiguredProxy : Proxy :=
  { exampleProxy with geoConfig := { CountryCode := "ZZ", ForwardedIP := getForwardedIP "ZZ" } }

/-- A `GET` that already carries `Accept-Language` and `X-Real-IP`. -/
def exampleGeoRequest : Request :=
  { exampleGet with
    Header := [("Accept-Language", ["fr-CH, fr;q=0.9"]), ("X-Real-Ip", ["203.0.113.9"])] }

/-- A stand-in for `url.Parse` that knows the target of `exampleProxy`. -/
def exampleParse (_ : String) : Except String URL :=
  .ok { Scheme := "http", Host := "localhost:3000" }

/-- A `GET` with `Upgrade: websocket` and `Connection: Upgrade, keep-alive`. -/
def upgradeRequest : Request :=
  { exampleGet with
    URL := { Path := "/socket", RawQuery := "room=7" }
    Header := [("Upgrade", ["websocket"]), ("Connection", ["Upgrade, keep-alive"])] }

/-- A `GET` with `Upgrade: websocket` and no `Connection` header. -/
def upgradeOnlyRequest : Request :=
  { exampleGet with Header := [("Upgrade", ["websocket"])] }

/-- A `GET` with `Connection: Upgrade` and no `Upgrade` header. -/
def connectionOnlyRequest : Request :=
  { exampleGet with Header := [("Connection", ["Upgrade"])] }

/-- The upgrade request with a method that is not a token, as an HTTP/2 or HTTP/3
client can send it in `:method`. -/
def badMethodUpgrade : Request :=
  { upgradeRequest with Method := "G(T" }

/-- As `exampleEnv`, for `badMethodUpgrade`: `http.NewRequest` rejects the method. -/
def badMethodEnv : Env :=
  { exampleEnv with newRequestErr := some "net/http: invalid method \"G(T\"" }

/-- A clock that is read 300 nanoseconds apart by `GenerateSelfSignedCert`, 100
nanoseconds before a full second and 200 nanoseconds after it; nothing fails. -/
def tickingCertEnv : CertEnv :=
  { generateKeyErr := none
    now1 := 1700000000 * 1000000000 + 999999900
    now2 := 1700000001 * 1000000000 + 200
    createErr := none
    marshalErr := none
    keyPairErr := none }

/-- A stand-in for `net.ParseIP` that knows the loopback address `127.0.0.1` (in
the 16-byte form that `net.ParseIP` returns) and takes anything else for a
name. -/
def exampleParseIP (s : String) : Option IP :=
  if s = "127.0.0.1" then some [0, 0, 0, 0, 0, 0, 0, 0, 0, 0, 255, 255, 127, 0, 0, 1] else none

/-- Two text messages. -/
def exampleMessages : List Message :=
  [{ messageType := 1, data := "ping" }, { messageType := 2, data := "pong" }]

/-- A source that delivers `exampleMessages` and is then closed by its peer. -/
def exampleSource : Conn :=
  { ReadMessage := fun i =>
      match exampleMessages[i]? with
      | some m => .ok m
      | none => .error { text := "websocket: close 1000 (normal)", closeCode := some 1000 }
    WriteMessage := fun _ _ => none }

/-- A destination that takes every message. -/
def exampleSink : Conn :=
  { ReadMessage := fun _ => .error { text := "EOF", closeCode := none }
    WriteMessage := fun _ _ => none }

/-- A destination whose second write fails. -/
def brokenSink : Conn :=
  { ReadMessage := fun _ => .error { text := "EOF", closeCode := none }
    WriteMessage := fun i _ =>
      if i = 1 then some { text := "write tcp: broken pipe", closeCode := none } else none }

/-- The upgrade request sent with the method `OPTIONS`. -/
def preflightUpgrade : Request :=
  { upgradeRequest with Method := "OPTIONS" }

/-- The request `GET /foo?x=1#frag`: the server does not split a request target
at `#`, so the raw query is `x=1#frag`. -/
def fragmentGet : Request :=
  { exampleGet with URL := { Path := "/foo", RawQuery := "x=1#frag" } }

/-- The upgrade request `GET /socket?room=7#x`. -/
def fragmentUpgrade : Request :=
  { upgradeRequest with URL := { Path := "/socket", RawQuery := "room=7#x" } }

/-- As `exampleEnv`, but the upstream answers with the status line
`HTTP/1.1 099`, which `client.Do` returns as status code 99. -/
def oddStatusEnv : Env :=
  { exampleEnv with doResult := .ok { exampleResponse with StatusCode := 99 } }

/-- The upgrade request with the Kelvin sign in `WEBSOCKET`. -/
def kelvinUpgrade : Request :=
  { upgradeRequest with
    Header := [("Upgrade", ["WEBSOC\u212AET"]), ("Connection", ["Upgrade, keep-alive"])] }

/-- As `exampleEnv`, but the WebSocket dial fails before the upstream answers. -/
def dialFailedEnv : Env :=
  { exampleEnv with
    dialErr := some ("dial tcp 127.0.0.1:3000: connect: connection refused", none) }

/-! ## Theorems -/

/-! ### The header map -/

theorem lookup_filter_ne (h : Header) (k k' : String) (hne : k' ≠ k) :
    (h.filter (fun e => e.1 != k)).lookup k' = h.lookup k' := by
  induction h with
  | nil => rfl
  | cons e rest ih =>
    obtain ⟨a, vs⟩ := e
    by_cases ha : a = k
    · subst ha
      have : (k' == a) = false := by simpa using hne
      simp [List.filter, List.lookup, this, ih]
    · have h1 : (a != k) = true := by simpa using ha
      simp only [List.filter, h1, List.lookup]
      rw [ih]

theorem Header.index_assign (h : Header) (k k' : String) (vs : List String) :
    Header.index (Header.assign h k vs) k' = if k' = k then vs else Header.index h k' := by
  by_cases hk : k' = k
  · subst hk; simp [Header.index, Header.assign, List.lookup]
  · have : (k' == k) = false := by simpa using hk
    simp [Header.index, Header.assign, List.lookup, this, hk, lookup_filter_ne h k k' hk]

theorem Header.Values_Set (h : Header) (k k' v : String) :
    Header.Values (Header.Set h k v) k' =
      if CanonicalMIMEHeaderKey k' = CanonicalMIMEHeaderKey k then [v]
      else Header.Values h k' := by
  simp [Header.Values, Header.Set, Header.index_assign]

theorem Header.Get_Set (h : Header) (k k' v : String) :
    Header.Get (Header.Set h k v) k' =
      if CanonicalMIMEHeaderKey k' = CanonicalMIMEHeaderKey k then v else Header.Get h k' := by
  unfold Header.Get Header.Set
  rw [Header.index_assign]
  by_cases hk : CanonicalMIMEHeaderKey k' = CanonicalMIMEHeaderKey k <;> simp [hk]

theorem Header.index_Add (h : Header) (k v k' : String) :
    Header.index (Header.Add h k v) k' =
      if k' = CanonicalMIMEHeaderKey k then Header.index h k' ++ [v] else Header.index h k' := by
  unfold Header.Add
  rw [Header.index_assign]
  by_cases hk : k' = CanonicalMIMEHeaderKey k <;> simp [hk]

theorem Header.index_foldl_Add (vs : List String) (k k' : String) :
    ∀ h : Header, Header.index (vs.foldl (fun a v => Header.Add a k v) h) k' =
      if k' = CanonicalMIMEHeaderKey k then Header.index h k' ++ vs else Header.index h k' := by
  induction vs with
  | nil => intro h; simp
  | cons v rest ih =>
    intro h
    simp only [List.foldl_cons, ih, Header.index_Add]
    by_cases hk : k' = CanonicalMIMEHeaderKey k <;> simp [hk]

theorem Header.index_addAll (src : Header) (k' : String) :
    ∀ dst : Header, Header.index (Header.addAll dst src) k' =
      Header.index dst k' ++ Header.contributed src k' := by
  induction src with
  | nil => intro dst; simp [Header.addAll, Header.contributed]
  | cons e rest ih =>
    intro dst
    have hstep : Header.addAll dst (e :: rest) =
        Header.addAll (e.2.foldl (fun a v => Header.Add a e.1 v) dst) rest := by
      simp [Header.addAll]
    rw [hstep, ih, Header.index_foldl_Add]
    by_cases hk : k' = CanonicalMIMEHeaderKey e.1
    · have : (CanonicalMIMEHeaderKey e.1 == k') = true := by simp [hk]
      simp [hk, Header.contributed, List.filter]
    · have : (CanonicalMIMEHeaderKey e.1 == k') = false := by
        simpa using fun h => hk h.symm
      simp [hk, Header.contributed, List.filter, this]

theorem Header.contributed_of_canonical (src : Header) (k : String) (hc : Header.Canonical src) :
    Header.contributed src k = Header.index src k := by
  induction src with
  | nil => rfl
  | cons e rest ih =>
    obtain ⟨a, vs⟩ := e
    have hrest : Header.Canonical rest :=
      ⟨fun e he => hc.1 e (List.mem_cons_of_mem _ he), (List.nodup_cons.mp hc.2).2⟩
    have ha : CanonicalMIMEHeaderKey a = a := hc.1 (a, vs) (List.mem_cons_self _ _)
    have hnot : a ∉ rest.map Prod.fst := (List.nodup_cons.mp hc.2).1
    by_cases hk : k = a
    · subst hk
      have hnone : Header.contributed rest k = [] := by
        unfold Header.contributed
        have : rest.filter (fun e => CanonicalMIMEHeaderKey e.1 == k) = [] := by
          rw [List.filter_eq_nil_iff]
          intro e he hek
          have h1 : CanonicalMIMEHeaderKey e.1 = e.1 :=
            hc.1 e (List.mem_cons_of_mem _ he)
          rw [h1] at hek
          exact hnot (by
            have : e.1 = k := by simpa using hek
            exact this ▸ List.mem_map_of_mem Prod.fst he)
        rw [this]; rfl
      have hcons : Header.contributed ((k, vs) :: rest) k = vs ++ Header.contributed rest k := by
        simp [Header.contributed, List.filter, ha]
      rw [hcons, hnone]
      simp [Header.index, List.lookup]
    · have h1 : (CanonicalMIMEHeaderKey a == k) = false := by
        rw [ha]; simpa using fun h => hk h.symm
      have h2 : (k == a) = false := by simpa using hk
      have hcons : Header.contributed ((a, vs) :: rest) k = Header.contributed rest k := by
        simp [Header.contributed, List.filter, h1]
      rw [hcons, ih hrest]
      simp [Header.index, List.lookup, h2]

theorem Header.Values_addAll (src : Header) (k : String) (hc : Header.Canonical src) :
    Header.Values (Header.addAll [] src) k = Header.Values src k := by
  unfold Header.Values
  rw [Header.index_addAll, Header.contributed_of_canonical src _ hc]
  simp [Header.index]

/-! ### The response writer -/

theorem setSecurityHeaders_status (w : ResponseWriter) (r : Request) :
    (setSecurityHeaders w r).status = w.status ∧ (setSecurityHeaders w r).body = w.body := by
  simp [setSecurityHeaders]

theorem setSecurityHeaders_origin (w : ResponseWriter) (r : Request) :
    Header.Get (setSecurityHeaders w r).header "Access-Control-Allow-Origin" =
      if Header.Get r.Header "Origin" = "" then "*" else Header.Get r.Header "Origin" := by
  have hk : ∀ k ∈ ["Access-Control-Allow-Methods", "Access-Control-Allow-Headers",
      "Access-Control-Allow-Credentials", "Access-Control-Max-Age", "X-Content-Type-Options",
      "X-Frame-Options", "X-XSS-Protection", "Referrer-Policy", "Content-Security-Policy"],
      CanonicalMIMEHeaderKey "Access-Control-Allow-Origin" ≠ CanonicalMIMEHeaderKey k := by
    decide
  simp only [List.mem_cons, List.mem_singleton, forall_eq_or_imp, forall_eq] at hk
  simp [setSecurityHeaders, Header.Get_Set, hk]

theorem line_ne_empty (error : String) : error ++ "\n" ≠ "" := by
  intro h
  have := congrArg String.length h
  simp only [String.length_append] at this
  have h1 : "\n".length = 1 := by decide
  have h0 : "".length = 0 := by decide
  omega

theorem WriteHeader_final (w : ResponseWriter) (code : Int) (hs : w.status = none)
    (hf : finalStatus code) :
    w.WriteHeader code = { w with status := some code }
    ∧ w.WriteHeaderPanics code = false := by
  unfold finalStatus at hf
  have h1 : ¬ (code < 100 ∨ code > 999) := by omega
  have h2 : ¬ (code ≤ 199 ∧ code ≠ StatusSwitchingProtocols) := by
    unfold StatusSwitchingProtocols; omega
  simp [ResponseWriter.WriteHeader, ResponseWriter.WriteHeaderPanics, hs, h1, h2]

theorem WriteHeader_invalid (w : ResponseWriter) (code : Int) (hs : w.status = none)
    (hc : code < 100 ∨ 999 < code) :
    w.WriteHeader code = { w with panicked := true }
    ∧ w.WriteHeaderPanics code = true := by
  have h1 : code < 100 ∨ code > 999 := hc
  simp [ResponseWriter.WriteHeader, ResponseWriter.WriteHeaderPanics, hs, h1]

theorem WriteHeader_informational (w : ResponseWriter) (code : Int) (hs : w.status = none)
    (hc : 100 ≤ code ∧ code ≤ 199 ∧ code ≠ StatusSwitchingProtocols) :
    w.WriteHeader code = { w with informational := w.informational ++ [code] } := by
  have h1 : ¬ (code < 100 ∨ code > 999) := by omega
  have h2 : code ≤ 199 ∧ code ≠ StatusSwitchingProtocols := ⟨hc.2.1, hc.2.2⟩
  simp [ResponseWriter.WriteHeader, hs, h1, h2]

theorem WriteHeader_in_range (w : ResponseWriter) (code : Int)
    (hc : 100 ≤ code ∧ code ≤ 999) :
    w.WriteHeaderPanics code = false := by
  have h1 : ¬ (code < 100 ∨ code > 999) := by omega
  unfold ResponseWriter.WriteHeaderPanics
  cases w.status <;> simp [h1]

theorem Write_taken (w : ResponseWriter) (data : String) (s : Int) (hs : w.status = some s)
    (ha : bodyAllowedForStatus s = true) (hd : data ≠ "") :
    w.Write data = { w with body := w.body ++ data } := by
  simp [ResponseWriter.Write, ResponseWriter.WriteHeader, ResponseWriter.bodyAllowed, hs, ha, hd]

theorem httpError_fresh (w : ResponseWriter) (error : String) (code : Int)
    (hs : w.status = none) (hb : w.body = "") (hf : finalStatus code) :
    (httpError w error code).status = some code
    ∧ (bodyAllowedForStatus code = true → (httpError w error code).body = error ++ "\n") := by
  have hw := WriteHeader_final
    { w with header := Header.Set (Header.Set (Header.Del w.header "Content-Length")
      "Content-Type" "text/plain; charset=utf-8") "X-Content-Type-Options" "nosniff" }
    code hs hf
  unfold httpError
  simp only [hw.1, hw.2]
  constructor
  · simp [ResponseWriter.Write, ResponseWriter.WriteHeader, line_ne_empty]
    split <;> rfl
  · intro ha
    rw [Write_taken _ _ code rfl ha (line_ne_empty error)]
    simp [hb]

theorem httpError_invalid (w : ResponseWriter) (error : String) (code : Int)
    (hs : w.status = none) (hb : w.body = "") (hc : code < 100 ∨ 999 < code) :
    (httpError w error code).panicked = true
    ∧ (httpError w error code).status = none
    ∧ (httpError w error code).body = "" := by
  have hw := WriteHeader_invalid
    { w with header := Header.Set (Header.Set (Header.Del w.header "Content-Length")
      "Content-Type" "text/plain; charset=utf-8") "X-Content-Type-Options" "nosniff" }
    code hs hc
  unfold httpError
  simp only [hw.1, hw.2]
  exact ⟨rfl, hs, hb⟩

theorem httpError_informational (w : ResponseWriter) (error : String) (code : Int)
    (hs : w.status = none) (hb : w.body = "")
    (hc : 100 ≤ code ∧ code ≤ 199 ∧ code ≠ StatusSwitchingProtocols) :
    (httpError w error code).informational = w.informational ++ [code]
    ∧ (httpError w error code).status = some StatusOK
    ∧ (httpError w error code).body = error ++ "\n" := by
  have hw := WriteHeader_informational
    { w with header := Header.Set (Header.Set (Header.Del w.header "Content-Length")
      "Content-Type" "text/plain; charset=utf-8") "X-Content-Type-Options" "nosniff" }
    code hs hc
  have hp := WriteHeader_in_range
    { w with header := Header.Set (Header.Set (Header.Del w.header "Content-Length")
      "Content-Type" "text/plain; charset=utf-8") "X-Content-Type-Options" "nosniff" }
    code ⟨hc.1, by omega⟩
  have hfin : ¬ (StatusOK < 100 ∨ StatusOK > 999) := by decide
  have hinf : ¬ (StatusOK ≤ 199 ∧ StatusOK ≠ StatusSwitchingProtocols) := by decide
  have hok : bodyAllowedForStatus StatusOK = true := by decide
  unfold httpError
  simp only [hw, hp]
  simp [ResponseWriter.Write, ResponseWriter.WriteHeader, ResponseWriter.bodyAllowed, hs, hb,
    hfin, hinf, hok, line_ne_empty]

theorem ioCopy_body (w : ResponseWriter) (b : String) (s : Int) (hs : w.status = some s)
    (ha : bodyAllowedForStatus s = true) (hb : w.body = "") :
    (ioCopy w b none).1.body = b := by
  unfold ioCopy
  by_cases h : b = ""
  · simp [h, hb]
  · simp [h, ResponseWriter.bodyAllowed, hs, ha, Write_taken w b s hs ha h, hb]

theorem ioCopy_body_cut (w : ResponseWriter) (b : String) (n : Nat) (e : String) (s : Int)
    (hs : w.status = some s) (ha : bodyAllowedForStatus s = true) (hb : w.body = "") :
    (ioCopy w b (some (n, e))).1.body = String.mk (b.data.take n) := by
  unfold ioCopy
  by_cases h : String.mk (b.data.take n) = ""
  · simp [h, hb]
  · simp [h, ResponseWriter.bodyAllowed, hs, ha, Write_taken w _ s hs ha h, hb]

theorem ioCopy_status (w : ResponseWriter) (b : String) (c : Option (Nat × String)) (s : Int)
    (hs : w.status = some s) :
    (ioCopy w b c).1.status = some s := by
  have hw : ∀ data, (w.Write data).status = some s := by
    intro data
    by_cases hd : data = "" <;> by_cases ha : bodyAllowedForStatus s = true <;>
      simp [ResponseWriter.Write, ResponseWriter.WriteHeader, ResponseWriter.bodyAllowed, hs, hd,
        ha]
  unfold ioCopy
  cases c with
  | none =>
    by_cases h : b = ""
    · simp [h, hs]
    · by_cases ha : w.bodyAllowed <;> simp [h, ha, hw]
  | some ne =>
    obtain ⟨n, e⟩ := ne
    by_cases h : String.mk (b.data.take n) = ""
    · simp [h, hs]
    · by_cases ha : w.bodyAllowed <;> simp [h, ha, hw]

/-! ### The branches of `ServeHTTP` -/

theorem ServeHTTP_preflight (p : Proxy) (env : Env) (m : ProxyMetrics) (w : ResponseWriter)
    (r : Request) (h : r.Method = MethodOptions) :
    ServeHTTP p env m w r =
      { metrics := m, w := (setSecurityHeaders w r).WriteHeader StatusNoContent,
        route := .preflight } := by
  simp [ServeHTTP, handlePreflight, h]

theorem ServeHTTP_constructFailed (p : Proxy) (env : Env) (m : ProxyMetrics)
    (w : ResponseWriter) (r : Request) (err : String) (h : r.Method ≠ MethodOptions)
    (hnew : env.newRequestErr = some err) :
    ServeHTTP p env m w r =
      { metrics := { m with RequestCount := m.RequestCount + 1, ErrorCount := m.ErrorCount + 1 },
        w := httpError (setSecurityHeaders w r) err StatusBadGateway,
        route := .constructFailed,
        logs := [⟨"info", "received request"⟩, ⟨"error", "failed to create proxy request"⟩] } := by
  simp [ServeHTTP, handlePreflight, h, hnew]

theorem ServeHTTP_webSocket (p : Proxy) (env : Env) (m : ProxyMetrics)
    (w : ResponseWriter) (r : Request) (h : r.Method ≠ MethodOptions)
    (hnew : env.newRequestErr = none) (hws : isWebSocketRequest env.unicodeToLower r = true) :
    (ServeHTTP p env m w r).metrics = { m with RequestCount := m.RequestCount + 1 }
    ∧ (ServeHTTP p env m w r).route = .webSocket
    ∧ (ServeHTTP p env m w r).dispatched = []
    ∧ ∃ hd, (ServeHTTP p env m w r).dialed = [(env.URLString (webSocketURL p r), hd)] := by
  simp [ServeHTTP, handlePreflight, h, hnew, hws, handleWebSocket]
  cases env.dialErr <;> cases env.upgradeErr <;> simp

theorem ServeHTTP_sendFailed (p : Proxy) (env : Env) (m : ProxyMetrics)
    (w : ResponseWriter) (r : Request) (err : String) (h : r.Method ≠ MethodOptions)
    (hnew : env.newRequestErr = none) (hws : isWebSocketRequest env.unicodeToLower r = false)
    (hdo : env.doResult = .error err) :
    (ServeHTTP p env m w r).metrics =
      { m with RequestCount := m.RequestCount + 1, ErrorCount := m.ErrorCount + 1 }
    ∧ (ServeHTTP p env m w r).route = .sendFailed
    ∧ (ServeHTTP p env m w r).w = httpError (setSecurityHeaders w r) err StatusBadGateway
    ∧ (ServeHTTP p env m w r).dispatched.length = 1
    ∧ (ServeHTTP p env m w r).dialed = [] := by
  simp [ServeHTTP, handlePreflight, h, hnew, hws, hdo]

/-- The writer as it stands before `w.WriteHeader(resp.StatusCode)`: security
headers and the headers of the upstream response. -/
theorem ServeHTTP_proxied (p : Proxy) (env : Env) (m : ProxyMetrics)
    (w : ResponseWriter) (r : Request) (resp : Response) (h : r.Method ≠ MethodOptions)
    (hnew : env.newRequestErr = none) (hws : isWebSocketRequest env.unicodeToLower r = false)
    (hdo : env.doResult = .ok resp)
    (hpan : ({ setSecurityHeaders w r with
        header := Header.addAll (setSecurityHeaders w r).header resp.Header } :
        ResponseWriter).WriteHeaderPanics resp.StatusCode = false) :
    (ServeHTTP p env m w r).metrics =
      { m with RequestCount := m.RequestCount + 1, ResponseCount := m.ResponseCount + 1,
               LatencyMs := m.LatencyMs + env.latencyMs }
    ∧ (ServeHTTP p env m w r).route = .proxied
    ∧ (ServeHTTP p env m w r).w =
      (ioCopy (({ setSecurityHeaders w r with
        header := Header.addAll (setSecurityHeaders w r).header resp.Header } :
        ResponseWriter).WriteHeader resp.StatusCode) resp.Body env.copyErr).1
    ∧ (∃ o, (ServeHTTP p env m w r).dispatched = [o]
        ∧ o.URL = env.requestURL (env.URLString
            { p.target with Path := r.URL.Path, RawQuery := r.URL.RawQuery }))
    ∧ (ServeHTTP p env m w r).dialed = [] := by
  simp [ServeHTTP, handlePreflight, h, hnew, hws, hdo, hpan]

theorem ServeHTTP_panicked (p : Proxy) (env : Env) (m : ProxyMetrics)
    (w : ResponseWriter) (r : Request) (resp : Response) (h : r.Method ≠ MethodOptions)
    (hnew : env.newRequestErr = none) (hws : isWebSocketRequest env.unicodeToLower r = false)
    (hdo : env.doResult = .ok resp)
    (hpan : ({ setSecurityHeaders w r with
        header := Header.addAll (setSecurityHeaders w r).header resp.Header } :
        ResponseWriter).WriteHeaderPanics resp.StatusCode = true) :
    (ServeHTTP p env m w r).metrics = { m with RequestCount := m.RequestCount + 1 }
    ∧ (ServeHTTP p env m w r).route = .panicked
    ∧ (ServeHTTP p env m w r).w =
      ({ setSecurityHeaders w r with
        header := Header.addAll (setSecurityHeaders w r).header resp.Header } :
        ResponseWriter).WriteHeader resp.StatusCode
    ∧ (∃ o, (ServeHTTP p env m w r).dispatched = [o]
        ∧ o.URL = env.requestURL (env.URLString
            { p.target with Path := r.URL.Path, RawQuery := r.URL.RawQuery }))
    ∧ (ServeHTTP p env m w r).dialed = [] := by
  simp [ServeHTTP, handlePreflight, h, hnew, hws, hdo, hpan]

/-- The branch a call takes, and what it does to the counters. -/
theorem ServeHTTP_cases (p : Proxy) (env : Env) (m : ProxyMetrics) (w : ResponseWriter)
    (r : Request) :
    (r.Method = MethodOptions ∧ (ServeHTTP p env m w r).route = .preflight
      ∧ (ServeHTTP p env m w r).metrics = m)
    ∨ (r.Method ≠ MethodOptions ∧ env.newRequestErr ≠ none
      ∧ (ServeHTTP p env m w r).route = .constructFailed
      ∧ (ServeHTTP p env m w r).metrics =
        { m with RequestCount := m.RequestCount + 1, ErrorCount := m.ErrorCount + 1 })
    ∨ (r.Method ≠ MethodOptions ∧ env.newRequestErr = none
      ∧ isWebSocketRequest env.unicodeToLower r = true
      ∧ (ServeHTTP p env m w r).route = .webSocket
      ∧ (ServeHTTP p env m w r).metrics = { m with RequestCount := m.RequestCount + 1 })
    ∨ (r.Method ≠ MethodOptions ∧ env.newRequestErr = none
      ∧ isWebSocketRequest env.unicodeToLower r = false
      ∧ (∃ err, env.doResult = .error err)
      ∧ (ServeHTTP p env m w r).route = .sendFailed
      ∧ (ServeHTTP p env m w r).metrics =
        { m with RequestCount := m.RequestCount + 1, ErrorCount := m.ErrorCount + 1 })
    ∨ (r.Method ≠ MethodOptions ∧ env.newRequestErr = none
      ∧ isWebSocketRequest env.unicodeToLower r = false
      ∧ (∃ resp, env.doResult = .ok resp)
      ∧ (ServeHTTP p env m w r).route = .proxied
      ∧ (ServeHTTP p env m w r).metrics =
        { m with RequestCount := m.RequestCount + 1, ResponseCount := m.ResponseCount + 1,
                 LatencyMs := m.LatencyMs + env.latencyMs })
    ∨ (r.Method ≠ MethodOptions ∧ env.newRequestErr = none
      ∧ isWebSocketRequest env.unicodeToLower r = false
      ∧ (∃ resp, env.doResult = .ok resp)
      ∧ (ServeHTTP p env m w r).route = .panicked
      ∧ (ServeHTTP p env m w r).metrics = { m with RequestCount := m.RequestCount + 1 }) := by
  by_cases h : r.Method = MethodOptions
  · left
    rw [ServeHTTP_preflight p env m w r h]
    exact ⟨h, rfl, rfl⟩
  · right
    cases hnew : env.newRequestErr with
    | some err =>
      left
      rw [ServeHTTP_constructFailed p env m w r err h hnew]
      exact ⟨h, by simp, rfl, rfl⟩
    | none =>
      right
      cases hws : isWebSocketRequest env.unicodeToLower r with
      | true =>
        left
        have := ServeHTTP_webSocket p env m w r h hnew hws
        exact ⟨h, rfl, rfl, this.2.1, this.1⟩
      | false =>
        right
        cases hdo : env.doResult with
        | error err =>
          left
          have := ServeHTTP_sendFailed p env m w r err h hnew hws hdo
          exact ⟨h, rfl, rfl, ⟨err, rfl⟩, this.2.1, this.1⟩
        | ok resp =>
          right
          cases hpan : ({ setSecurityHeaders w r with
              header := Header.addAll (setSecurityHeaders w r).header resp.Header } :
              ResponseWriter).WriteHeaderPanics resp.StatusCode with
          | false =>
            left
            have := ServeHTTP_proxied p env m w r resp h hnew hws hdo hpan
            exact ⟨h, rfl, rfl, ⟨resp, rfl⟩, this.2.1, this.1⟩
          | true =>
            right
            have := ServeHTTP_panicked p env m w r resp h hnew hws hdo hpan
            exact ⟨h, rfl, rfl, ⟨resp, rfl⟩, this.2.1, this.1⟩

theorem ServeHTTP_proxyReq (p : Proxy) (env : Env) (m : ProxyMetrics) (w : ResponseWriter)
    (r : Request) :
    (ServeHTTP p env m w r).proxyReq =
      (if r.Method ≠ MethodOptions ∧ env.newRequestErr = none then
        some (outboundRequest p env r) else none)
    ∧ (∀ d ∈ (ServeHTTP p env m w r).dispatched, d = outboundRequest p env r)
    ∧ (∀ d ∈ (ServeHTTP p env m w r).dialed, d.2 = (outboundRequest p env r).Header) := by
  by_cases h : r.Method = MethodOptions
  · simp [ServeHTTP, handlePreflight, h]
  · cases hnew : env.newRequestErr with
    | some err => simp [ServeHTTP, handlePreflight, h, hnew]
    | none =>
      cases hws : isWebSocketRequest env.unicodeToLower r with
      | true =>
        simp [ServeHTTP, handlePreflight, h, hnew, hws, outboundRequest, handleWebSocket]
        cases env.dialErr <;> cases env.upgradeErr <;> simp
      | false =>
        cases hdo : env.doResult with
        | error err => simp [ServeHTTP, handlePreflight, h, hnew, hws, hdo, outboundRequest]
        | ok resp =>
          cases hpan : ({ setSecurityHeaders w r with
              header := Header.addAll (setSecurityHeaders w r).header resp.Header } :
              ResponseWriter).WriteHeaderPanics resp.StatusCode <;>
            simp [ServeHTTP, handlePreflight, h, hnew, hws, hdo, outboundRequest, hpan]

theorem mem_of_lookup {α : Type} (l : List (String × α)) (k : String) (v : α)
    (h : l.lookup k = some v) : (k, v) ∈ l := by
  induction l with
  | nil => simp [List.lookup] at h
  | cons e rest ih =>
    obtain ⟨a, b⟩ := e
    by_cases hk : k = a
    · subst hk
      simp [List.lookup] at h
      simp [h]
    · have : (k == a) = false := by simpa using hk
      simp only [List.lookup, this] at h
      exact List.mem_cons_of_mem _ (ih h)

theorem countryToIP_entry (c ip : String) (h : countryToIP.lookup c = some ip) :
    c ≠ "" ∧ ip ≠ "" := by
  have hall : ∀ e ∈ countryToIP, e.1 ≠ "" ∧ e.2 ≠ "" := by decide
  exact hall (c, ip) (mem_of_lookup _ _ _ h)

/-! ### C1: the request counter -/

theorem ServeHTTP_counts (p : Proxy) (env : Env) (m : ProxyMetrics) (w : ResponseWriter)
    (r : Request) :
    (ServeHTTP p env m w r).metrics.RequestCount =
        m.RequestCount + (if r.Method = MethodOptions then 0 else 1)
    ∧ (ServeHTTP p env m w r).metrics.ResponseCount - m.ResponseCount ≤
        (if r.Method = MethodOptions then 0 else 1) := by
  rcases ServeHTTP_cases p env m w r with h | h | h | h | h | h
  · simp [h.1, h.2.2]
  · simp [h.1, h.2.2.2]
  · simp [h.1, h.2.2.2.2]
  · simp [h.1, h.2.2.2.2.2]
  · simp [h.1, h.2.2.2.2.2]
  · simp [h.1, h.2.2.2.2.2]

theorem serveAll_counts (p : Proxy) (reqs : List (Env × Request)) :
    ∀ m : ProxyMetrics,
      (serveAll p m reqs).RequestCount = m.RequestCount + (nonPreflight reqs : Int)
      ∧ (serveAll p m reqs).ResponseCount - m.ResponseCount ≤ (nonPreflight reqs : Int) := by
  induction reqs with
  | nil => intro m; simp [serveAll, nonPreflight]
  | cons er rest ih =>
    intro m
    obtain ⟨env, r⟩ := er
    have hs := ServeHTTP_counts p env m freshWriter r
    have hr := ih (ServeHTTP p env m freshWriter r).metrics
    simp only [serveAll]
    by_cases h : r.Method = MethodOptions
    · simp only [h, if_true] at hs
      have hn : nonPreflight ((env, r) :: rest) = nonPreflight rest := by
        simp [nonPreflight, h]
      rw [hn]; omega
    · simp only [h, if_false] at hs
      have hn : nonPreflight ((env, r) :: rest) = nonPreflight rest + 1 := by
        simp [nonPreflight, h]
      rw [hn]; push_cast; omega

/-- C1. Starting from fresh counters, after any finite sequence of requests
`RequestCount` is the number of requests of the sequence whose method is not
`OPTIONS` (whatever the environment does for each of them: upstream failure,
WebSocket upgrade, ...), and after every request of the sequence
`ResponseCount ≤ RequestCount`. -/
theorem C1_request_count (p : Proxy) (reqs : List (Env × Request)) :
    (serveAll p freshMetrics reqs).RequestCount =
        ((reqs.filter (fun er => er.2.Method ≠ MethodOptions)).length : Int)
    ∧ ∀ n : Nat, (serveAll p freshMetrics (reqs.take n)).ResponseCount ≤
        (serveAll p freshMetrics (reqs.take n)).RequestCount := by
  have h0 : freshMetrics.RequestCount = 0 ∧ freshMetrics.ResponseCount = 0 := ⟨rfl, rfl⟩
  constructor
  · have := (serveAll_counts p reqs freshMetrics).1
    rw [h0.1] at this
    simpa [nonPreflight] using this
  · intro n
    have := serveAll_counts p (reqs.take n) freshMetrics
    omega

/-! ### C2: a proxied request -/

theorem ioCopy_body_refused (w : ResponseWriter) (b : String) (c : Option (Nat × String))
    (s : Int) (hs : w.status = some s) (ha : bodyAllowedForStatus s = false) :
    (ioCopy w b c).1.body = w.body := by
  have hw : ∀ data, (w.Write data).body = w.body := by
    intro data
    by_cases hd : data = "" <;>
      simp [ResponseWriter.Write, ResponseWriter.WriteHeader, ResponseWriter.bodyAllowed, hs, hd,
        ha]
  have hna : w.bodyAllowed = false := by simp [ResponseWriter.bodyAllowed, hs, ha]
  unfold ioCopy
  cases c with
  | none => by_cases h : b = "" <;> simp [h, hna, hw]
  | some ne =>
    obtain ⟨n, e⟩ := ne
    by_cases h : String.mk (b.data.take n) = "" <;> simp [h, hna, hw]

/-- C2, counterexample. Three requests `GET /foo?x=1` that are neither `OPTIONS`
nor upgrades and whose dispatch succeeds. (1) The upstream answers `200` with
body `hello` and the client goes away after two bytes: `io.Copy` fails, the
failure is only logged, and what has been written to the client is `he`.
(2) The request target is `/foo?x=1#frag`, so the inbound raw query is
`x=1#frag`: `http.NewRequest` parses the string `http://localhost:3000/foo?x=1#frag`
and the request that is dispatched has the raw query `x=1`. (3) The upstream
answers with status code 99: `w.WriteHeader(99)` panics, no status is written
and `ResponseCount` stays 0. -/
theorem C2_body_cut_short :
    (exampleGet.Method ≠ MethodOptions
      ∧ isWebSocketRequest exampleToLower exampleGet = false
      ∧ cutEnv.newRequestErr = none
      ∧ cutEnv.doResult = .ok exampleResponse
      ∧ exampleResponse.Body = "hello"
      ∧ (ServeHTTP exampleProxy cutEnv freshMetrics freshWriter exampleGet).w.status = some 200
      ∧ (ServeHTTP exampleProxy cutEnv freshMetrics freshWriter exampleGet).w.body = "he"
      ∧ (ServeHTTP exampleProxy cutEnv freshMetrics freshWriter exampleGet).w.body
          ≠ exampleResponse.Body)
    ∧ (fragmentGet.Method ≠ MethodOptions
      ∧ isWebSocketRequest exampleToLower fragmentGet = false
      ∧ exampleEnv.doResult = .ok exampleResponse
      ∧ fragmentGet.URL.RawQuery = "x=1#frag"
      ∧ exampleEnv.URLString { exampleProxy.target with Path := "/foo", RawQuery := "x=1#frag" }
          = "http://localhost:3000/foo?x=1#frag"
      ∧ (ServeHTTP exampleProxy exampleEnv freshMetrics freshWriter fragmentGet).dispatched.map
          (fun o => o.URL.RawQuery) = ["x=1"]
      ∧ (ServeHTTP exampleProxy exampleEnv freshMetrics freshWriter fragmentGet).dispatched.map
          (fun o => o.URL.RawQuery) ≠ [fragmentGet.URL.RawQuery])
    ∧ (oddStatusEnv.doResult = .ok { exampleResponse with StatusCode := 99 }
      ∧ (ServeHTTP exampleProxy oddStatusEnv freshMetrics freshWriter exampleGet).route
          = .panicked
      ∧ (ServeHTTP exampleProxy oddStatusEnv freshMetrics freshWriter exampleGet).w.status = none
      ∧ (ServeHTTP exampleProxy oddStatusEnv freshMetrics freshWriter
          exampleGet).metrics.ResponseCount = 0
      ∧ freshMetrics.ResponseCount = 0) :=
  ⟨⟨by decide, by decide, rfl, rfl, rfl, by decide, by decide, by decide⟩,
   ⟨by decide, by decide, rfl, rfl, by decide, by decide, by decide⟩,
   ⟨rfl, by decide, by decide, by decide, rfl⟩⟩

/-- C2, amended. For a request that is neither `OPTIONS` nor a WebSocket upgrade
and whose dispatch succeeds with response `resp`. Exactly one request is
dispatched; its URL is what `http.NewRequest` has parsed from the `String()`
form of the target URL with the inbound path and raw query put in, so it has
the scheme and host of the target and the inbound path and raw query whenever
parsing gives that URL back. `ErrorCount` is unchanged. If the status code lies
from 100 to 999, `ResponseCount` grows by exactly 1, whether or not the copy
fails. If it is a final status code (101, or from 200 to 999), it is the status
written to the client; the body written is `resp.Body` when `io.Copy` does not
fail and the status allows a body or the body is empty, it is the part of
`resp.Body` that went through before the error when `io.Copy` fails, and it is
empty when the status allows no body. If it is an informational status code
(from 100 to 199 and not 101), it is written as an interim response and the
body follows under the status 200. If the status code is below 100 or above
999, `w.WriteHeader` panics: no status and no body are written and
`ResponseCount` is unchanged. -/
theorem C2_proxied (p : Proxy) (env : Env) (m : ProxyMetrics) (r : Request) (resp : Response)
    (hopt : r.Method ≠ MethodOptions) (hws : isWebSocketRequest env.unicodeToLower r = false)
    (hnew : env.newRequestErr = none) (hdo : env.doResult = .ok resp) :
    (∃ o, (ServeHTTP p env m freshWriter r).dispatched = [o]
        ∧ o.URL = env.requestURL (env.URLString
            { p.target with Path := r.URL.Path, RawQuery := r.URL.RawQuery })
        ∧ (env.requestURL (env.URLString
              { p.target with Path := r.URL.Path, RawQuery := r.URL.RawQuery })
            = { p.target with Path := r.URL.Path, RawQuery := r.URL.RawQuery } →
          o.URL.Scheme = p.target.Scheme ∧ o.URL.Host = p.target.Host
          ∧ o.URL.Path = r.URL.Path ∧ o.URL.RawQuery = r.URL.RawQuery))
    ∧ (ServeHTTP p env m freshWriter r).metrics.ErrorCount = m.ErrorCount
    ∧ (100 ≤ resp.StatusCode ∧ resp.StatusCode ≤ 999 →
        (ServeHTTP p env m freshWriter r).metrics.ResponseCount = m.ResponseCount + 1)
    ∧ (finalStatus resp.StatusCode →
        (ServeHTTP p env m freshWriter r).w.status = some resp.StatusCode
        ∧ (bodyAllowedForStatus resp.StatusCode = true ∨ resp.Body = "" →
            env.copyErr = none → (ServeHTTP p env m freshWriter r).w.body = resp.Body)
        ∧ (bodyAllowedForStatus resp.StatusCode = true → ∀ n e, env.copyErr = some (n, e) →
            (ServeHTTP p env m freshWriter r).w.body = String.mk (resp.Body.data.take n))
        ∧ (bodyAllowedForStatus resp.StatusCode = false →
            (ServeHTTP p env m freshWriter r).w.body = ""))
    ∧ (100 ≤ resp.StatusCode ∧ resp.StatusCode ≤ 199
          ∧ resp.StatusCode ≠ StatusSwitchingProtocols →
        (ServeHTTP p env m freshWriter r).w.informational = [resp.StatusCode]
        ∧ (env.copyErr = none → (ServeHTTP p env m freshWriter r).w.body = resp.Body
          ∧ (resp.Body ≠ "" → (ServeHTTP p env m freshWriter r).w.status = some StatusOK)))
    ∧ (resp.StatusCode < 100 ∨ 999 < resp.StatusCode →
        (ServeHTTP p env m freshWriter r).route = .panicked
        ∧ (ServeHTTP p env m freshWriter r).w.status = none
        ∧ (ServeHTTP p env m freshWriter r).w.body = ""
        ∧ (ServeHTTP p env m freshWriter r).metrics.ResponseCount = m.ResponseCount) := by
  have hs0 : ({ setSecurityHeaders freshWriter r with
      header := Header.addAll (setSecurityHeaders freshWriter r).header resp.Header } :
      ResponseWriter).status = none := by
    simp [setSecurityHeaders, freshWriter]
  have hb0 : ({ setSecurityHeaders freshWriter r with
      header := Header.addAll (setSecurityHeaders freshWriter r).header resp.Header } :
      ResponseWriter).body = "" := by
    simp [setSecurityHeaders, freshWriter]
  have hurl : ∃ o, (ServeHTTP p env m freshWriter r).dispatched = [o]
      ∧ o.URL = env.requestURL (env.URLString
          { p.target with Path := r.URL.Path, RawQuery := r.URL.RawQuery }) := by
    rcases hpan : ({ setSecurityHeaders freshWriter r with
        header := Header.addAll (setSecurityHeaders freshWriter r).header resp.Header } :
        ResponseWriter).WriteHeaderPanics resp.StatusCode with _ | _
    · exact (ServeHTTP_proxied p env m freshWriter r resp hopt hnew hws hdo hpan).2.2.2.1
    · exact (ServeHTTP_panicked p env m freshWriter r resp hopt hnew hws hdo hpan).2.2.2.1
  refine ⟨?_, ?_, ?_, ?_, ?_, ?_⟩
  · obtain ⟨o, ho, hu⟩ := hurl
    refine ⟨o, ho, hu, ?_⟩
    intro hrt
    rw [hu, hrt]
    exact ⟨rfl, rfl, rfl, rfl⟩
  · rcases hpan : ({ setSecurityHeaders freshWriter r with
        header := Header.addAll (setSecurityHeaders freshWriter r).header resp.Header } :
        ResponseWriter).WriteHeaderPanics resp.StatusCode with _ | _
    · rw [(ServeHTTP_proxied p env m freshWriter r resp hopt hnew hws hdo hpan).1]
    · rw [(ServeHTTP_panicked p env m freshWriter r resp hopt hnew hws hdo hpan).1]
  · intro hc
    have hpan := WriteHeader_in_range ({ setSecurityHeaders freshWriter r with
        header := Header.addAll (setSecurityHeaders freshWriter r).header resp.Header } :
        ResponseWriter) resp.StatusCode hc
    rw [(ServeHTTP_proxied p env m freshWriter r resp hopt hnew hws hdo hpan).1]
  · intro hf
    obtain ⟨hwh, hpan⟩ := WriteHeader_final _ resp.StatusCode hs0 hf
    obtain ⟨-, -, hw, -, -⟩ := ServeHTTP_proxied p env m freshWriter r resp hopt hnew hws hdo hpan
    rw [hw, hwh]
    refine ⟨ioCopy_status _ _ _ _ rfl, ?_, ?_, ?_⟩
    · intro ha hc
      rw [hc]
      rcases ha with ha | ha
      · exact ioCopy_body _ _ _ rfl ha hb0
      · rw [ha]
        simp [ioCopy, hb0]
    · intro ha n e hc
      rw [hc]
      exact ioCopy_body_cut _ _ _ _ _ rfl ha hb0
    · intro ha
      rw [ioCopy_body_refused _ _ _ _ rfl ha]
      exact hb0
  · intro hc
    have hpan := WriteHeader_in_range ({ setSecurityHeaders freshWriter r with
        header := Header.addAll (setSecurityHeaders freshWriter r).header resp.Header } :
        ResponseWriter) resp.StatusCode ⟨hc.1, by omega⟩
    obtain ⟨-, -, hw, -, -⟩ := ServeHTTP_proxied p env m freshWriter r resp hopt hnew hws hdo hpan
    rw [hw, WriteHeader_informational _ resp.StatusCode hs0 hc]
    have hfin : ¬ (StatusOK < 100 ∨ StatusOK > 999) := by decide
    have hinf : ¬ (StatusOK ≤ 199 ∧ StatusOK ≠ StatusSwitchingProtocols) := by decide
    have hok : bodyAllowedForStatus StatusOK = true := by decide
    have hs1 : (setSecurityHeaders freshWriter r).status = none := by
      simp [setSecurityHeaders, freshWriter]
    have hb1 : (setSecurityHeaders freshWriter r).body = "" := by
      simp [setSecurityHeaders, freshWriter]
    have hi1 : (setSecurityHeaders freshWriter r).informational = [] := by
      simp [setSecurityHeaders, freshWriter]
    constructor
    · cases env.copyErr with
      | none =>
        by_cases hb : resp.Body = "" <;>
          simp [ioCopy, ResponseWriter.Write, ResponseWriter.WriteHeader,
            ResponseWriter.bodyAllowed, hs1, hi1, hb, hfin, hinf, hok]
      | some ne =>
        by_cases hb : String.mk (resp.Body.data.take ne.1) = "" <;>
          simp [ioCopy, ResponseWriter.Write, ResponseWriter.WriteHeader,
            ResponseWriter.bodyAllowed, hs1, hi1, hb, hfin, hinf, hok]
    · intro hce
      rw [hce]
      by_cases hb : resp.Body = "" <;>
        simp [ioCopy, ResponseWriter.Write, ResponseWriter.WriteHeader,
          ResponseWriter.bodyAllowed, hs1, hb1, hb, hfin, hinf, hok]
  · intro hc
    obtain ⟨hwh, hpan⟩ := WriteHeader_invalid _ resp.StatusCode hs0 hc
    obtain ⟨hm, hroute, hw, -, -⟩ :=
      ServeHTTP_panicked p env m freshWriter r resp hopt hnew hws hdo hpan
    rw [hw, hwh, hm]
    exact ⟨hroute, hs0, hb0, rfl⟩

/-- C2, witness: `GET /foo?x=1` answered `200` with body `hello`. -/
theorem C2_proxied_witness :
    (ServeHTTP exampleProxy exampleEnv freshMetrics freshWriter exampleGet).w.status = some 200
    ∧ (ServeHTTP exampleProxy exampleEnv freshMetrics freshWriter exampleGet).w.body = "hello"
    ∧ (ServeHTTP exampleProxy exampleEnv freshMetrics freshWriter exampleGet).metrics.ResponseCount
        = 0 + 1
    ∧ (∃ o, (ServeHTTP exampleProxy exampleEnv freshMetrics freshWriter exampleGet).dispatched
        = [o]
      ∧ o.URL = exampleURLParse "http://localhost:3000/foo?x=1"
      ∧ o.URL.Scheme = "http" ∧ o.URL.Host = "localhost:3000"
      ∧ o.URL.Path = "/foo" ∧ o.URL.RawQuery = "x=1") :=
  have h := C2_proxied exampleProxy exampleEnv freshMetrics exampleGet exampleResponse
    (by decide) (by decide) rfl rfl
  have hf := h.2.2.2.1 (by decide)
  match h.1 with
  | ⟨o, ho, hu, hrt⟩ =>
    ⟨hf.1, hf.2.1 (Or.inl (by decide)) rfl, h.2.2.1 (by decide),
     ⟨o, ho, hu, hrt (by decide)⟩⟩

/-! ### C3: the upstream cannot be reached -/

/-- C3, counterexample. The upstream refuses the connection with error text `e`;
the body of the `502` is `e` followed by a line feed (`http.Error` writes the
message as a line), not `e`. -/
theorem C3_body_has_line_feed :
    exampleGet.Method ≠ MethodOptions
    ∧ isWebSocketRequest exampleToLower exampleGet = false
    ∧ refusedEnv.newRequestErr = none
    ∧ refusedEnv.doResult = .error "dial tcp 127.0.0.1:3000: connect: connection refused"
    ∧ (ServeHTTP exampleProxy refusedEnv freshMetrics freshWriter exampleGet).w.status = some 502
    ∧ (ServeHTTP exampleProxy refusedEnv freshMetrics freshWriter exampleGet).w.body
        = "dial tcp 127.0.0.1:3000: connect: connection refused\n"
    ∧ (ServeHTTP exampleProxy refusedEnv freshMetrics freshWriter exampleGet).w.body
        ≠ "dial tcp 127.0.0.1:3000: connect: connection refused" :=
  ⟨by decide, by decide, rfl, rfl, by decide, by decide, by decide⟩

/-- C3, amended. For a request that is neither `OPTIONS` nor a WebSocket upgrade,
if `http.NewRequest` or `client.Do` fails with error text `e`: the response is
`502` with body `e` followed by a line feed, `ErrorCount` grows by exactly 1,
`ResponseCount` and `LatencyMs` are unchanged, and the request is dispatched at
most once (not at all when it could not be built, once when sending failed).
`ErrorCount` changes on no other branch: for every call, if `ErrorCount` differs
afterwards then `http.NewRequest` failed or `client.Do` failed; in particular a
failing `io.Copy` leaves it unchanged. -/
theorem C3_bad_gateway (p : Proxy) (env : Env) (m : ProxyMetrics) (r : Request) (e : String)
    (hopt : r.Method ≠ MethodOptions) (hws : isWebSocketRequest env.unicodeToLower r = false)
    (hfail : env.newRequestErr = some e ∨
      (env.newRequestErr = none ∧ env.doResult = .error e)) :
    (ServeHTTP p env m freshWriter r).w.status = some 502
    ∧ (ServeHTTP p env m freshWriter r).w.body = e ++ "\n"
    ∧ (ServeHTTP p env m freshWriter r).metrics.ErrorCount = m.ErrorCount + 1
    ∧ (ServeHTTP p env m freshWriter r).metrics.ResponseCount = m.ResponseCount
    ∧ (ServeHTTP p env m freshWriter r).metrics.LatencyMs = m.LatencyMs
    ∧ (env.newRequestErr = some e → (ServeHTTP p env m freshWriter r).dispatched = [])
    ∧ (env.newRequestErr = none → (ServeHTTP p env m freshWriter r).dispatched.length = 1)
    ∧ (∀ (env1 : Env) (m1 : ProxyMetrics) (w1 : ResponseWriter) (r1 : Request),
        (ServeHTTP p env1 m1 w1 r1).metrics.ErrorCount ≠ m1.ErrorCount →
          r1.Method ≠ MethodOptions ∧
          (env1.newRequestErr ≠ none ∨
            (isWebSocketRequest env1.unicodeToLower r1 = false ∧ ∃ e1, env1.doResult = .error e1)))
    ∧ (∀ (env1 : Env) (m1 : ProxyMetrics) (w1 : ResponseWriter) (r1 : Request) (resp : Response),
        env1.newRequestErr = none → env1.doResult = .ok resp →
          (ServeHTTP p env1 m1 w1 r1).metrics.ErrorCount = m1.ErrorCount) := by
  have hsec := setSecurityHeaders_status freshWriter r
  have herr0 := httpError_fresh (setSecurityHeaders freshWriter r) e StatusBadGateway
    (by rw [hsec.1]; rfl) (by rw [hsec.2]; rfl) (by decide)
  have herr : (httpError (setSecurityHeaders freshWriter r) e StatusBadGateway).status
        = some 502
      ∧ (httpError (setSecurityHeaders freshWriter r) e StatusBadGateway).body = e ++ "\n" :=
    ⟨herr0.1, herr0.2 (by decide)⟩
  have hother : ∀ (env1 : Env) (m1 : ProxyMetrics) (w1 : ResponseWriter) (r1 : Request),
      (ServeHTTP p env1 m1 w1 r1).metrics.ErrorCount ≠ m1.ErrorCount →
        r1.Method ≠ MethodOptions ∧
        (env1.newRequestErr ≠ none ∨
          (isWebSocketRequest env1.unicodeToLower r1 = false ∧ ∃ e1, env1.doResult = .error e1)) := by
    intro env1 m1 w1 r1 hne
    rcases ServeHTTP_cases p env1 m1 w1 r1 with h | h | h | h | h | h
    · exact absurd (by rw [h.2.2]) hne
    · exact ⟨h.1, Or.inl h.2.1⟩
    · exact absurd (by rw [h.2.2.2.2]) hne
    · exact ⟨h.1, Or.inr ⟨h.2.2.1, h.2.2.2.1⟩⟩
    · exact absurd (by rw [h.2.2.2.2.2]) hne
    · exact absurd (by rw [h.2.2.2.2.2]) hne
  have hcopy : ∀ (env1 : Env) (m1 : ProxyMetrics) (w1 : ResponseWriter) (r1 : Request)
      (resp : Response), env1.newRequestErr = none → env1.doResult = .ok resp →
        (ServeHTTP p env1 m1 w1 r1).metrics.ErrorCount = m1.ErrorCount := by
    intro env1 m1 w1 r1 resp hn hd
    by_contra hne
    obtain ⟨-, h | ⟨-, e1, he1⟩⟩ := hother env1 m1 w1 r1 hne
    · exact h hn
    · rw [hd] at he1; cases he1
  rcases hfail with hnew | ⟨hnew, hdo⟩
  · rw [ServeHTTP_constructFailed p env m freshWriter r e hopt hnew]
    exact ⟨herr.1, herr.2, rfl, rfl, rfl, fun _ => rfl, fun h => by simp [hnew] at h,
      hother, hcopy⟩
  · obtain ⟨hm, -, hw, hd, -⟩ := ServeHTTP_sendFailed p env m freshWriter r e hopt hnew hws hdo
    rw [hw, hm]
    exact ⟨herr.1, herr.2, rfl, rfl, rfl, fun h => by simp [hnew] at h, fun _ => hd,
      hother, hcopy⟩

/-- C3, witness: the upstream refuses the connection. -/
theorem C3_bad_gateway_witness :
    (ServeHTTP exampleProxy refusedEnv freshMetrics freshWriter exampleGet).w.status = some 502
    ∧ (ServeHTTP exampleProxy refusedEnv freshMetrics freshWriter exampleGet).metrics.ErrorCount
        = 0 + 1
    ∧ (ServeHTTP exampleProxy refusedEnv freshMetrics freshWriter exampleGet).metrics.ResponseCount
        = 0 :=
  have h := C3_bad_gateway exampleProxy refusedEnv freshMetrics exampleGet
    "dial tcp 127.0.0.1:3000: connect: connection refused" (by decide) (by decide)
    (Or.inr ⟨rfl, rfl⟩)
  ⟨h.1, h.2.2.1, h.2.2.2.1⟩

/-! ### C4: the preflight -/

/-- C4. An `OPTIONS` request that carries an `Origin` header with value `o` (that
is, `r.Header.Get("Origin")` is `o` and not empty) is answered with status 204,
an empty body and `Access-Control-Allow-Origin: o`; no outbound request is
built, none is dispatched, no WebSocket is dialled, and the counters are not
touched. -/
theorem C4_preflight (p : Proxy) (env : Env) (m : ProxyMetrics) (r : Request) (o : String)
    (hopt : r.Method = MethodOptions) (ho : Header.Get r.Header "Origin" = o) (hne : o ≠ "") :
    (ServeHTTP p env m freshWriter r).w.status = some 204
    ∧ (ServeHTTP p env m freshWriter r).w.body = ""
    ∧ Header.Get (ServeHTTP p env m freshWriter r).w.header "Access-Control-Allow-Origin" = o
    ∧ (ServeHTTP p env m freshWriter r).route = .preflight
    ∧ (ServeHTTP p env m freshWriter r).proxyReq = none
    ∧ (ServeHTTP p env m freshWriter r).dispatched = []
    ∧ (ServeHTTP p env m freshWriter r).dialed = []
    ∧ (ServeHTTP p env m freshWriter r).metrics = m := by
  rw [ServeHTTP_preflight p env m freshWriter r hopt]
  have hsec := setSecurityHeaders_status freshWriter r
  have hw := (WriteHeader_final (setSecurityHeaders freshWriter r) StatusNoContent
    (by rw [hsec.1]; rfl) (by decide)).1
  rw [hw]
  refine ⟨rfl, ?_, ?_, rfl, rfl, rfl, rfl, rfl⟩
  · show (setSecurityHeaders freshWriter r).body = ""
    rw [hsec.2]; rfl
  · show Header.Get (setSecurityHeaders freshWriter r).header "Access-Control-Allow-Origin" = o
    simp only [setSecurityHeaders_origin, ho, hne, if_false]

/-- C4, witness: a preflight from `https://app.example`. -/
theorem C4_preflight_witness :
    (ServeHTTP exampleProxy exampleEnv freshMetrics freshWriter examplePreflight).w.status
        = some 204
    ∧ (ServeHTTP exampleProxy exampleEnv freshMetrics freshWriter examplePreflight).w.body = ""
    ∧ Header.Get (ServeHTTP exampleProxy exampleEnv freshMetrics freshWriter
        examplePreflight).w.header "Access-Control-Allow-Origin" = "https://app.example" :=
  have h := C4_preflight exampleProxy exampleEnv freshMetrics examplePreflight
    "https://app.example" (by decide) (by decide) (by decide)
  ⟨h.1, h.2.1, h.2.2.1⟩

/-! ### C5: the geo-location headers -/

theorem NewProxy_geoConfig (urlParse : String → Except String URL) (targetURL c : String)
    (p : Proxy) (hp : NewProxy urlParse targetURL c = .ok p) :
    p.geoConfig = { CountryCode := c, ForwardedIP := getForwardedIP c } := by
  unfold NewProxy at hp
  cases hu : urlParse targetURL with
  | error err => rw [hu] at hp; cases hp
  | ok target =>
    rw [hu] at hp
    injection hp with hp
    rw [← hp]

theorem outboundRequest_geo (p : Proxy) (env : Env) (r : Request)
    (hip : p.geoConfig.ForwardedIP ≠ "") (hc : p.geoConfig.CountryCode ≠ "") :
    Header.Values (outboundRequest p env r).Header "X-Real-IP" = [p.geoConfig.ForwardedIP]
    ∧ Header.Values (outboundRequest p env r).Header "CF-Connecting-IP"
        = [p.geoConfig.ForwardedIP]
    ∧ Header.Values (outboundRequest p env r).Header "CF-IPCountry" = [p.geoConfig.CountryCode]
    ∧ Header.Values (outboundRequest p env r).Header "Accept-Language"
        = [getLanguageForCountry p.geoConfig.CountryCode] := by
  have hk : ∀ a ∈ ["X-Real-IP", "CF-Connecting-IP", "CF-IPCountry", "Accept-Language"],
      ∀ b ∈ ["X-Real-IP", "CF-Connecting-IP", "CF-IPCountry", "Accept-Language", "Origin"],
      (CanonicalMIMEHeaderKey a = CanonicalMIMEHeaderKey b) = (a = b) := by
    decide
  simp only [List.mem_cons, List.mem_singleton, forall_eq_or_imp, forall_eq] at hk
  by_cases ho : Header.Get r.Header "Origin" = "" <;>
    simp [outboundRequest, hip, hc, ho, Header.Values_Set, hk]

theorem outboundRequest_no_geo (p : Proxy) (env : Env) (r : Request)
    (hip : p.geoConfig.ForwardedIP = "") (hr : Header.Canonical r.Header) :
    ∀ k ∈ ["X-Real-IP", "CF-Connecting-IP", "CF-IPCountry", "Accept-Language"],
      Header.Values (outboundRequest p env r).Header k = Header.Values r.Header k := by
  have hk : ∀ a ∈ ["X-Real-IP", "CF-Connecting-IP", "CF-IPCountry", "Accept-Language"],
      ∀ b ∈ ["X-Request-ID", "X-Forwarded-For", "X-Forwarded-Proto", "X-Forwarded-Host",
        "Origin"],
      CanonicalMIMEHeaderKey a ≠ CanonicalMIMEHeaderKey b := by
    decide
  simp only [List.mem_cons, List.mem_singleton, forall_eq_or_imp, forall_eq] at hk
  simp only [List.mem_cons, List.mem_singleton, forall_eq_or_imp, forall_eq, List.not_mem_nil,
    false_imp_iff, implies_true, and_true]
  by_cases ho : Header.Get r.Header "Origin" = "" <;>
    simp [outboundRequest, hip, ho, Header.Values_Set, hk, Header.Values_addAll _ _ hr]

/-- C5. Let `p` be the proxy that `NewProxy` makes for country code `c`, and let
`r` be a request that is not `OPTIONS`. When `http.NewRequest` succeeds an
outbound request is built, and it is the one handed to `client.Do` or, for a
WebSocket upgrade, the one whose header is handed to the dialler. On that
outbound request: if `c` has the entry `ip` in `countryToIP`, the only value of
`X-Real-IP` and of `CF-Connecting-IP` is `ip`, the only value of `CF-IPCountry`
is `c`, and the only value of `Accept-Language` is the entry of `c` in
`countryToLanguage`, or `en-US,en;q=0.9` when it has none; if `c` has no entry
in `countryToIP`, the values of these four headers are those of the inbound
request. -/
theorem C5_geo_headers (urlParse : String → Except String URL) (targetURL c : String)
    (p : Proxy) (env : Env) (m : ProxyMetrics) (w : ResponseWriter) (r : Request)
    (hp : NewProxy urlParse targetURL c = .ok p) (hopt : r.Method ≠ MethodOptions) :
    (env.newRequestErr = none → ∃ o, (ServeHTTP p env m w r).proxyReq = some o)
    ∧ ∀ o, (ServeHTTP p env m w r).proxyReq = some o →
      (∀ d ∈ (ServeHTTP p env m w r).dispatched, d = o)
      ∧ (∀ d ∈ (ServeHTTP p env m w r).dialed, d.2 = o.Header)
      ∧ (∀ ip, countryToIP.lookup c = some ip →
          Header.Values o.Header "X-Real-IP" = [ip]
          ∧ Header.Values o.Header "CF-Connecting-IP" = [ip]
          ∧ Header.Values o.Header "CF-IPCountry" = [c]
          ∧ Header.Values o.Header "Accept-Language" =
              [match countryToLanguage.lookup c with
               | some lang => lang
               | none => "en-US,en;q=0.9"])
      ∧ (countryToIP.lookup c = none → Header.Canonical r.Header →
          ∀ k ∈ ["X-Real-IP", "CF-Connecting-IP", "CF-IPCountry", "Accept-Language"],
            Header.Values o.Header k = Header.Values r.Header k) := by
  have hgeo := NewProxy_geoConfig urlParse targetURL c p hp
  obtain ⟨hreq, hdisp, hdial⟩ := ServeHTTP_proxyReq p env m w r
  constructor
  · intro hnew
    exact ⟨outboundRequest p env r, by rw [hreq]; simp [hopt, hnew]⟩
  · intro o ho
    have hoeq : o = outboundRequest p env r := by
      rw [hreq] at ho
      by_cases hc : r.Method ≠ MethodOptions ∧ env.newRequestErr = none
      · rw [if_pos hc] at ho; exact (Option.some.inj ho).symm
      · rw [if_neg hc] at ho; cases ho
    subst hoeq
    refine ⟨hdisp, hdial, ?_, ?_⟩
    · intro ip hip
      obtain ⟨hc0, hip0⟩ := countryToIP_entry c ip hip
      have hf : p.geoConfig.ForwardedIP = ip := by
        rw [hgeo]; simp [getForwardedIP, hip]
      have hcc : p.geoConfig.CountryCode = c := by rw [hgeo]
      have := outboundRequest_geo p env r (by rw [hf]; exact hip0) (by rw [hcc]; exact hc0)
      rw [hf, hcc] at this
      exact ⟨this.1, this.2.1, this.2.2.1, by rw [this.2.2.2]; rfl⟩
    · intro hnone hr
      have hf : p.geoConfig.ForwardedIP = "" := by
        rw [hgeo]; simp [getForwardedIP, hnone]
      exact outboundRequest_no_geo p env r hf hr

/-- C5, witness: country `US` on `GET /foo?x=1`, and the unconfigured country `ZZ`
on a request that carries `Accept-Language` and `X-Real-IP` itself. -/
theorem C5_geo_headers_witness :
    (∃ o, (ServeHTTP exampleProxy exampleEnv freshMetrics freshWriter exampleGet).proxyReq
        = some o
      ∧ Header.Values o.Header "X-Real-IP" = ["204.79.197.200"]
      ∧ Header.Values o.Header "CF-IPCountry" = ["US"]
      ∧ Header.Values o.Header "Accept-Language" = ["en-US,en;q=0.9"])
    ∧ (∃ o, (ServeHTTP unconfiguredProxy exampleEnv freshMetrics freshWriter
        exampleGeoRequest).proxyReq = some o
      ∧ Header.Values o.Header "X-Real-IP" = ["203.0.113.9"]
      ∧ Header.Values o.Header "CF-IPCountry" = []
      ∧ Header.Values o.Header "Accept-Language" = ["fr-CH, fr;q=0.9"]) :=
  have h := C5_geo_headers exampleParse "http://localhost:3000" "US" exampleProxy exampleEnv
    freshMetrics freshWriter exampleGet rfl (by decide)
  have h2 := C5_geo_headers exampleParse "http://localhost:3000" "ZZ" unconfiguredProxy
    exampleEnv freshMetrics freshWriter exampleGeoRequest rfl (by decide)
  match h.1 rfl, h2.1 rfl with
  | ⟨o, ho⟩, ⟨o2, ho2⟩ =>
    have hv := (h.2 o ho).2.2.1 "204.79.197.200" (by decide)
    have hz := (h2.2 o2 ho2).2.2.2 (by decide) (by decide)
    ⟨⟨o, ho, hv.1, hv.2.2.1, hv.2.2.2⟩,
     ⟨o2, ho2, (hz "X-Real-IP" (by decide)).trans (by decide),
      (hz "CF-IPCountry" (by decide)).trans (by decide),
      (hz "Accept-Language" (by decide)).trans (by decide)⟩⟩

/-! ### C6: the upgrade predicate -/

theorem equalIgnoringCase_iff (lower : Char → Char) (a b : List Char) :
    equalIgnoringCase lower a b = true ↔ a.map lower = b.map lower := by
  induction a generalizing b with
  | nil => cases b <;> simp [equalIgnoringCase]
  | cons x xs ih =>
    cases b with
    | nil => simp [equalIgnoringCase]
    | cons y ys => simp [equalIgnoringCase, ih]

theorem map_fixed (lower : Char → Char) (l : List Char) (h : ∀ c ∈ l, lower c = c) :
    l.map lower = l := by
  induction l with
  | nil => rfl
  | cons x xs ih =>
    simp only [List.map_cons, h x (List.mem_cons_self _ _),
      ih (fun c hc => h c (List.mem_cons_of_mem _ hc))]

theorem hasPrefixChars_iff (sub l : List Char) :
    hasPrefixChars sub l = true ↔ ∃ rest, l = sub ++ rest := by
  induction sub generalizing l with
  | nil => simp [hasPrefixChars]
  | cons x xs ih =>
    cases l with
    | nil => simp [hasPrefixChars]
    | cons y ys =>
      simp only [hasPrefixChars, Bool.and_eq_true, beq_iff_eq, ih, List.cons_append,
        List.cons.injEq]
      constructor
      · rintro ⟨rfl, rest, rfl⟩; exact ⟨rest, rfl, rfl⟩
      · rintro ⟨rest, rfl, rfl⟩; exact ⟨rfl, rest, rfl⟩

theorem containsChars_iff (l sub : List Char) :
    containsChars l sub = true ↔ ∃ before rest, l = before ++ sub ++ rest := by
  induction l with
  | nil =>
    cases sub <;> simp [containsChars]
  | cons c cs ih =>
    simp only [containsChars, Bool.or_eq_true, hasPrefixChars_iff, ih]
    constructor
    · rintro (⟨rest, h⟩ | ⟨before, rest, h⟩)
      · exact ⟨[], rest, by simpa using h⟩
      · exact ⟨c :: before, rest, by simp [h]⟩
    · rintro ⟨before, rest, h⟩
      cases before with
      | nil => exact Or.inl ⟨rest, by simpa using h⟩
      | cons b bs =>
        simp only [List.cons_append, List.cons.injEq] at h
        exact Or.inr ⟨bs, rest, h.2⟩

theorem contains_toLower_iff (lower : Char → Char) (s : String) (sub : List Char)
    (hsub : sub.map lower = sub) :
    contains (toLower lower s) (String.mk sub) = true ↔
      containsIgnoringCase lower s.data sub := by
  unfold contains toLower containsIgnoringCase
  simp only [containsChars_iff, equalIgnoringCase_iff, hsub]
  constructor
  · rintro ⟨before, rest, h⟩
    obtain ⟨l12, l3, h1, h2, h3⟩ := List.map_eq_append_iff.mp h
    obtain ⟨l1, l2, h4, h5, h6⟩ := List.map_eq_append_iff.mp h2
    exact ⟨l1, l2, l3, by rw [h1, h4], h6⟩
  · rintro ⟨before, mid, rest, h, hm⟩
    exact ⟨before.map lower, rest.map lower, by simp [h, hm]⟩

theorem isWebSocketRequest_iff (lower : Char → Char) (r : Request)
    (hlow : ∀ c ∈ ("websocket" ++ "upgrade").data, lower c = c) :
    isWebSocketRequest lower r = true ↔ upgradePredicate lower r := by
  have hl1 : "websocket".data.map lower = "websocket".data :=
    map_fixed lower _ (fun c hc => hlow c (by
      have : ("websocket" ++ "upgrade").data = "websocket".data ++ "upgrade".data := rfl
      rw [this]; exact List.mem_append_left _ hc))
  have hl2 : "upgrade".data.map lower = "upgrade".data :=
    map_fixed lower _ (fun c hc => hlow c (by
      have : ("websocket" ++ "upgrade").data = "websocket".data ++ "upgrade".data := rfl
      rw [this]; exact List.mem_append_right _ hc))
  unfold isWebSocketRequest upgradePredicate
  have h1 : (toLower lower (Header.Get r.Header "Upgrade") == "websocket") = true ↔
      equalIgnoringCase lower (Header.Get r.Header "Upgrade").data "websocket".data = true := by
    rw [equalIgnoringCase_iff, beq_iff_eq, hl1]
    unfold toLower
    constructor
    · intro h; rw [← h]
    · intro h; rw [h]
  have h2 := contains_toLower_iff lower (Header.Get r.Header "Connection") "upgrade".data hl2
  rw [Bool.and_eq_true, h1]
  exact and_congr Iff.rfl h2

/-- C6, counterexample. A request that is not `OPTIONS` and carries
`Upgrade: websocket` and `Connection: Upgrade, keep-alive`, but whose method
`http.NewRequest` rejects: `ServeHTTP` answers `502` where the outbound request
is built, before it looks at the upgrade headers, and nothing is handed to
`handleWebSocket`. -/
theorem C6_upgrade_not_handed_over :
    badMethodUpgrade.Method ≠ MethodOptions
    ∧ Header.Values badMethodUpgrade.Header "Upgrade" = ["websocket"]
    ∧ Header.Values badMethodUpgrade.Header "Connection" = ["Upgrade, keep-alive"]
    ∧ isWebSocketRequest exampleToLower badMethodUpgrade = true
    ∧ (ServeHTTP exampleProxy badMethodEnv freshMetrics freshWriter badMethodUpgrade).route
        = .constructFailed
    ∧ (ServeHTTP exampleProxy badMethodEnv freshMetrics freshWriter badMethodUpgrade).dialed = []
    ∧ (ServeHTTP exampleProxy badMethodEnv freshMetrics freshWriter badMethodUpgrade).w.status
        = some 502 :=
  ⟨by decide, by decide, by decide, by decide, by decide, by decide, by decide⟩

/-- C6, amended. Whatever `unicode.ToLower` is, as long as it leaves the letters
of `websocket` and `upgrade` as they are: `isWebSocketRequest(r)` is true
exactly when the `Upgrade` header of `r` equals `websocket` ignoring case and
its `Connection` header contains `upgrade` ignoring case. A request that lacks
one of the two headers is not an upgrade. For a request that is not `OPTIONS`
and for which `http.NewRequest` has built the outbound request: if it is an
upgrade it is handed to `handleWebSocket` (the `String()` of the WebSocket URL
is dialled with the outbound header and nothing goes through `client.Do`),
otherwise it is dispatched with `client.Do` and no WebSocket is dialled. -/
theorem C6_upgrade_routing (p : Proxy) (env : Env) (m : ProxyMetrics) (w : ResponseWriter)
    (r : Request) :
    ((∀ c ∈ ("websocket" ++ "upgrade").data, env.unicodeToLower c = c) →
        (isWebSocketRequest env.unicodeToLower r = true ↔
          upgradePredicate env.unicodeToLower r))
    ∧ (Header.Get r.Header "Upgrade" = "" ∨ Header.Get r.Header "Connection" = "" →
        isWebSocketRequest env.unicodeToLower r = false)
    ∧ (r.Method ≠ MethodOptions → env.newRequestErr = none →
        (isWebSocketRequest env.unicodeToLower r = true →
          (ServeHTTP p env m w r).route = .webSocket
          ∧ (ServeHTTP p env m w r).dialed =
              [(env.URLString (webSocketURL p r), (outboundRequest p env r).Header)]
          ∧ (ServeHTTP p env m w r).dispatched = [])
        ∧ (isWebSocketRequest env.unicodeToLower r = false →
          ((ServeHTTP p env m w r).route = .sendFailed
            ∨ (ServeHTTP p env m w r).route = .proxied
            ∨ (ServeHTTP p env m w r).route = .panicked)
          ∧ (ServeHTTP p env m w r).dispatched = [outboundRequest p env r]
          ∧ (ServeHTTP p env m w r).dialed = [])) := by
  refine ⟨isWebSocketRequest_iff env.unicodeToLower r, ?_, ?_⟩
  · rintro (h | h)
    · have : (toLower env.unicodeToLower "" == "websocket") = false := by
        have h0 : toLower env.unicodeToLower "" = "" := rfl
        rw [h0]; decide
      simp [isWebSocketRequest, h, this]
    · have : contains (toLower env.unicodeToLower "") "upgrade" = false := by
        have h0 : toLower env.unicodeToLower "" = "" := rfl
        rw [h0]; decide
      simp [isWebSocketRequest, h, this]
  · intro hopt hnew
    obtain ⟨-, hdisp, hdial⟩ := ServeHTTP_proxyReq p env m w r
    constructor
    · intro hws
      obtain ⟨-, hroute, hd, hd2, hdl⟩ := ServeHTTP_webSocket p env m w r hopt hnew hws
      refine ⟨hroute, ?_, hd⟩
      rw [hdl]
      have := hdial (env.URLString (webSocketURL p r), hd2) (by rw [hdl]; simp)
      simp only at this
      rw [this]
    · intro hws
      cases hdo : env.doResult with
      | error err =>
        obtain ⟨-, hroute, -, hlen, hdl⟩ := ServeHTTP_sendFailed p env m w r err hopt hnew hws hdo
        refine ⟨Or.inl hroute, ?_, hdl⟩
        match hd : (ServeHTTP p env m w r).dispatched, hlen with
        | [d], _ =>
          rw [hdisp d (by rw [hd]; simp)]
      | ok resp =>
        rcases hpan : ({ setSecurityHeaders w r with
            header := Header.addAll (setSecurityHeaders w r).header resp.Header } :
            ResponseWriter).WriteHeaderPanics resp.StatusCode with _ | _
        · obtain ⟨-, hroute, -, ⟨o, ho, -⟩, hdl⟩ :=
            ServeHTTP_proxied p env m w r resp hopt hnew hws hdo hpan
          refine ⟨Or.inr (Or.inl hroute), ?_, hdl⟩
          rw [ho, hdisp o (by rw [ho]; simp)]
        · obtain ⟨-, hroute, -, ⟨o, ho, -⟩, hdl⟩ :=
            ServeHTTP_panicked p env m w r resp hopt hnew hws hdo hpan
          refine ⟨Or.inr (Or.inr hroute), ?_, hdl⟩
          rw [ho, hdisp o (by rw [ho]; simp)]

/-- C6, witness: the request with `Upgrade: websocket` and
`Connection: Upgrade, keep-alive` is handed to `handleWebSocket`, and so is the
one with the Kelvin sign in `WEBSOCKET`, which meets the upgrade predicate; the
requests with only one of the two headers go through `client.Do`. -/
theorem C6_upgrade_routing_witness :
    (ServeHTTP exampleProxy exampleEnv freshMetrics freshWriter upgradeRequest).route
        = .webSocket
    ∧ (upgradePredicate exampleToLower kelvinUpgrade
      ∧ (ServeHTTP exampleProxy exampleEnv freshMetrics freshWriter kelvinUpgrade).route
        = .webSocket)
    ∧ ((ServeHTTP exampleProxy exampleEnv freshMetrics freshWriter upgradeOnlyRequest).route
        = .sendFailed
      ∨ (ServeHTTP exampleProxy exampleEnv freshMetrics freshWriter upgradeOnlyRequest).route
        = .proxied
      ∨ (ServeHTTP exampleProxy exampleEnv freshMetrics freshWriter upgradeOnlyRequest).route
        = .panicked)
    ∧ ((ServeHTTP exampleProxy exampleEnv freshMetrics freshWriter connectionOnlyRequest).route
        = .sendFailed
      ∨ (ServeHTTP exampleProxy exampleEnv freshMetrics freshWriter connectionOnlyRequest).route
        = .proxied
      ∨ (ServeHTTP exampleProxy exampleEnv freshMetrics freshWriter
          connectionOnlyRequest).route = .panicked) :=
  have h1 := C6_upgrade_routing exampleProxy exampleEnv freshMetrics freshWriter upgradeRequest
  have hk := C6_upgrade_routing exampleProxy exampleEnv freshMetrics freshWriter kelvinUpgrade
  have h2 := C6_upgrade_routing exampleProxy exampleEnv freshMetrics freshWriter
    upgradeOnlyRequest
  have h3 := C6_upgrade_routing exampleProxy exampleEnv freshMetrics freshWriter
    connectionOnlyRequest
  ⟨((h1.2.2 (by decide) rfl).1 (by decide)).1,
   ⟨(hk.1 (by decide)).mp (by decide), ((hk.2.2 (by decide) rfl).1 (by decide)).1⟩,
   ((h2.2.2 (by decide) rfl).2 (h2.2.1 (Or.inr (by decide)))).1,
   ((h3.2.2 (by decide) rfl).2 (h3.2.1 (Or.inl (by decide)))).1⟩

/-! ### C7: the WebSocket URL -/

/-- C7, counterexample. The upgrade request `GET /socket?room=7` arrives for host
`proxy.example.com` (its URL carries no host) at a proxy whose target is
`localhost:3000`: what is dialled is `wss://localhost:3000/socket?room=7`, with
the host of the target and not a host of the inbound request. And what is
dialled is a string: for the raw query `room=7#x` it is
`wss://localhost:3000/socket?room=7#x`, which reads as a URL with the query
`room=7` and the fragment `x`, not the query of the inbound request. -/
theorem C7_dials_target_host :
    upgradeRequest.Method ≠ MethodOptions
    ∧ isWebSocketRequest exampleToLower upgradeRequest = true
    ∧ upgradeRequest.Host = "proxy.example.com"
    ∧ upgradeRequest.URL.Host = ""
    ∧ (ServeHTTP exampleProxy exampleEnv freshMetrics freshWriter upgradeRequest).dialed.map
        (fun d => d.1) = ["wss://localhost:3000/socket?room=7"]
    ∧ (ServeHTTP exampleProxy exampleEnv freshMetrics freshWriter upgradeRequest).dialed.map
        (fun d => (exampleURLParse d.1).Host) = ["localhost:3000"]
    ∧ (ServeHTTP exampleProxy exampleEnv freshMetrics freshWriter upgradeRequest).dialed.map
        (fun d => (exampleURLParse d.1).Host) ≠ [upgradeRequest.Host]
    ∧ (ServeHTTP exampleProxy exampleEnv freshMetrics freshWriter upgradeRequest).dialed.map
        (fun d => (exampleURLParse d.1).Host) ≠ [upgradeRequest.URL.Host]
    ∧ fragmentUpgrade.Method ≠ MethodOptions
    ∧ isWebSocketRequest exampleToLower fragmentUpgrade = true
    ∧ fragmentUpgrade.URL.RawQuery = "room=7#x"
    ∧ (ServeHTTP exampleProxy exampleEnv freshMetrics freshWriter fragmentUpgrade).dialed.map
        (fun d => d.1) = ["wss://localhost:3000/socket?room=7#x"]
    ∧ (ServeHTTP exampleProxy exampleEnv freshMetrics freshWriter fragmentUpgrade).dialed.map
        (fun d => (exampleURLParse d.1).RawQuery) = ["room=7"]
    ∧ (ServeHTTP exampleProxy exampleEnv freshMetrics freshWriter fragmentUpgrade).dialed.map
        (fun d => (exampleURLParse d.1).RawQuery) ≠ [fragmentUpgrade.URL.RawQuery] :=
  ⟨by decide, by decide, rfl, rfl, by decide, by decide, by decide, by decide, by decide,
   by decide, rfl, by decide, by decide, by decide⟩

/-- C7, amended. For every WebSocket upgrade request that reaches
`handleWebSocket`, exactly one URL is dialled, as a string: the `String()` of
the URL whose scheme is `wss` whatever the scheme of the target, whose host is
the host of the upstream target, whose path and raw query are those of the
inbound request, and whose other fields are empty. -/
theorem C7_webSocket_url (p : Proxy) (env : Env) (m : ProxyMetrics) (w : ResponseWriter)
    (r : Request) (hopt : r.Method ≠ MethodOptions) (hnew : env.newRequestErr = none)
    (hws : isWebSocketRequest env.unicodeToLower r = true) :
    ∃ hd, (ServeHTTP p env m w r).dialed =
      [(env.URLString
          { Scheme := "wss", Host := p.target.Host, Path := r.URL.Path,
            RawQuery := r.URL.RawQuery }, hd)] := by
  obtain ⟨-, -, -, hd, hdl⟩ := ServeHTTP_webSocket p env m w r hopt hnew hws
  refine ⟨hd, ?_⟩
  rw [hdl]
  unfold webSocketURL
  by_cases hq : r.URL.RawQuery = ""
  · simp [hq]
  · simp [hq]

/-- C7, witness: the upgrade request `GET /socket?room=7`. -/
theorem C7_webSocket_url_witness :
    ∃ hd, (ServeHTTP exampleProxy exampleEnv freshMetrics freshWriter upgradeRequest).dialed
        = [("wss://localhost:3000/socket?room=7", hd)] :=
  C7_webSocket_url exampleProxy exampleEnv freshMetrics freshWriter upgradeRequest
    (by decide) rfl (by decide)

/-! ### C8 and C9: the self-signed certificate -/

theorem GenerateSelfSignedCert_ok (parseIP : String → Option IP) (env : CertEnv)
    (domain : String) (res : SelfSigned)
    (h : GenerateSelfSignedCert parseIP env domain = .ok res) :
    res.template.NotBefore = env.now1
    ∧ res.template.NotAfter = env.now2 + 24 * Hour
    ∧ res.template.IPAddresses = (match parseIP domain with | some ip => [ip] | none => [])
    ∧ res.template.DNSNames = (match parseIP domain with | some _ => [] | none => [domain])
    ∧ res.leaf = encodedCertificate res.template := by
  unfold GenerateSelfSignedCert at h
  cases h1 : env.generateKeyErr with
  | some e => rw [h1] at h; cases h
  | none =>
    cases h2 : env.createErr with
    | some e => rw [h1, h2] at h; cases h
    | none =>
      cases h3 : env.marshalErr with
      | some e => rw [h1, h2, h3] at h; cases h
      | none =>
        cases h4 : env.keyPairErr with
        | some e => rw [h1, h2, h3, h4] at h; cases h
        | none =>
          rw [h1, h2, h3, h4] at h
          simp only at h
          injection h with h
          subst h
          cases parseIP domain <;> simp

theorem GenerateSelfSignedCert_succeeds (parseIP : String → Option IP) (env : CertEnv)
    (domain : String) (h1 : env.generateKeyErr = none) (h2 : env.createErr = none)
    (h3 : env.marshalErr = none) (h4 : env.keyPairErr = none) :
    ∃ res, GenerateSelfSignedCert parseIP env domain = .ok res := by
  unfold GenerateSelfSignedCert
  rw [h1, h2, h3, h4]
  exact ⟨_, rfl⟩

/-- The window of the certificate that `GenerateSelfSignedCert` returns, in terms
of the two readings of the clock: both ends are whole seconds, `NotBefore` is the
second of the first reading and `NotAfter` the second of the second reading plus
24 hours. The window is 24 hours exactly when both readings fall in the same
second. -/
theorem GenerateSelfSignedCert_window (parseIP : String → Option IP) (env : CertEnv)
    (domain : String) (res : SelfSigned)
    (h : GenerateSelfSignedCert parseIP env domain = .ok res) :
    res.leaf.NotBefore = env.now1 / Second * Second
    ∧ res.leaf.NotAfter = env.now2 / Second * Second + 24 * Hour
    ∧ (res.leaf.NotAfter - res.leaf.NotBefore = 24 * Hour ↔
        env.now1 / Second = env.now2 / Second) := by
  obtain ⟨hb, ha, -, -, hl⟩ := GenerateSelfSignedCert_ok parseIP env domain res h
  have h1 : res.leaf.NotBefore = env.now1 / Second * Second := by
    rw [hl]
    show res.template.NotBefore - res.template.NotBefore % Second = _
    rw [hb]
    have := Int.emod_add_ediv env.now1 Second
    linarith
  have h2 : res.leaf.NotAfter = env.now2 / Second * Second + 24 * Hour := by
    rw [hl]
    show res.template.NotAfter - res.template.NotAfter % Second = _
    rw [ha]
    have hh : (24 * Hour : Int) = Second * 86400 := by decide
    rw [hh, Int.add_mul_emod_self_left]
    have := Int.emod_add_ediv env.now2 Second
    linarith
  refine ⟨h1, h2, ?_⟩
  rw [h1, h2]
  have hs : (Second : Int) ≠ 0 := by decide
  constructor
  · intro h
    have : env.now1 / Second * Second = env.now2 / Second * Second := by linarith
    exact Int.eq_of_mul_eq_mul_right hs this
  · intro h
    rw [h]; ring

/-- C8, the failing input. The first reading of the clock is 100 ns before a full
second and the second reading 200 ns after it: `GenerateSelfSignedCert` returns
a certificate whose `NotBefore` is the second before and whose `NotAfter` is 24
hours after the second after, a window of 24 hours and one second. -/
theorem C8_window_exceeds_24h :
    tickingCertEnv.now2 - tickingCertEnv.now1 = 300
    ∧ ∃ res, GenerateSelfSignedCert exampleParseIP tickingCertEnv "example.com" = .ok res
      ∧ res.leaf.NotBefore = 1700000000 * Second
      ∧ res.leaf.NotAfter = 1700000001 * Second + 24 * Hour
      ∧ res.leaf.NotAfter - res.leaf.NotBefore = 24 * Hour + Second
      ∧ res.leaf.NotAfter - res.leaf.NotBefore ≠ 24 * Hour :=
  ⟨by decide, _, rfl, by decide, by decide, by decide, by decide⟩

/-- C9. Whenever `GenerateSelfSignedCert` returns a certificate for the domain `d`
(which it does when none of the library calls fails), the certificate template
it has built has exactly one subject alternative name: if `d` parses as the IP
address `ip`, its `IPAddresses` are `[ip]` and its `DNSNames` are empty;
otherwise its `DNSNames` are `[d]` and its `IPAddresses` are empty. -/
theorem C9_subject_alternative_name (parseIP : String → Option IP) (env : CertEnv)
    (d : String) :
    (env.generateKeyErr = none → env.createErr = none → env.marshalErr = none →
      env.keyPairErr = none → ∃ res, GenerateSelfSignedCert parseIP env d = .ok res)
    ∧ ∀ res, GenerateSelfSignedCert parseIP env d = .ok res →
      res.template.IPAddresses.length + res.template.DNSNames.length = 1
      ∧ (∀ ip, parseIP d = some ip →
          res.template.IPAddresses = [ip] ∧ res.template.DNSNames = [])
      ∧ (parseIP d = none → res.template.DNSNames = [d] ∧ res.template.IPAddresses = []) := by
  refine ⟨GenerateSelfSignedCert_succeeds parseIP env d, ?_⟩
  intro res h
  obtain ⟨-, -, hip, hdns, -⟩ := GenerateSelfSignedCert_ok parseIP env d res h
  rw [hip, hdns]
  cases parseIP d with
  | none => simp
  | some ip => simp

/-- C9, witness: the domains `example.com` and `127.0.0.1`. -/
theorem C9_subject_alternative_name_witness :
    (∃ res, GenerateSelfSignedCert exampleParseIP tickingCertEnv "example.com" = .ok res
      ∧ res.template.DNSNames = ["example.com"] ∧ res.template.IPAddresses = [])
    ∧ (∃ res, GenerateSelfSignedCert exampleParseIP tickingCertEnv "127.0.0.1" = .ok res
      ∧ res.template.IPAddresses = [[0, 0, 0, 0, 0, 0, 0, 0, 0, 0, 255, 255, 127, 0, 0, 1]]
      ∧ res.template.DNSNames = []) :=
  have h1 := C9_subject_alternative_name exampleParseIP tickingCertEnv "example.com"
  have h2 := C9_subject_alternative_name exampleParseIP tickingCertEnv "127.0.0.1"
  match h1.1 rfl rfl rfl rfl, h2.1 rfl rfl rfl rfl with
  | ⟨c1, hc1⟩, ⟨c2, hc2⟩ =>
    ⟨⟨c1, hc1, ((h1.2 c1 hc1).2.2 (by decide)).1, ((h1.2 c1 hc1).2.2 (by decide)).2⟩,
     ⟨c2, hc2,
      ((h2.2 c2 hc2).2.1 [0, 0, 0, 0, 0, 0, 0, 0, 0, 0, 255, 255, 127, 0, 0, 1] (by decide)).1,
      ((h2.2 c2 hc2).2.1 [0, 0, 0, 0, 0, 0, 0, 0, 0, 0, 255, 255, 127, 0, 0, 1] (by decide)).2⟩⟩

/-! ### C10: the pump -/

theorem pumpLoop_spec (src dst : Conn) (msgs : List Message) (e : ConnError)
    (hread : ∀ i m, msgs[i]? = some m → src.ReadMessage i = .ok m)
    (herr : src.ReadMessage msgs.length = .error e) :
    ∀ (n i : Nat) (logs : List LogEntry), i + n = msgs.length →
      (∀ k m, k < i → msgs[k]? = some m → dst.WriteMessage k m = none) →
      ∃ res, (∀ fuel, n < fuel → pumpLoop src dst fuel i (msgs.take i) logs = some res)
        ∧ ((res.err = some e ∧ res.written = msgs ∧ res.reads = msgs.length + 1
            ∧ ∀ k m, msgs[k]? = some m → dst.WriteMessage k m = none)
          ∨ (∃ j mj we, msgs[j]? = some mj ∧ dst.WriteMessage j mj = some we
            ∧ (∀ k m, k < j → msgs[k]? = some m → dst.WriteMessage k m = none)
            ∧ res.err = some we ∧ res.written = msgs.take (j + 1) ∧ res.reads = j + 1)) := by
  intro n
  induction n with
  | zero =>
    intro i logs hi hw
    have hi' : i = msgs.length := by omega
    subst hi'
    refine ⟨{ err := some e, written := msgs.take msgs.length, reads := msgs.length + 1
              logs := if IsUnexpectedCloseError e [CloseGoingAway, CloseAbnormalClosure] then
                  logs ++ [⟨"error", "unexpected websocket close"⟩]
                else logs }, ?_, Or.inl ⟨rfl, ?_, rfl, ?_⟩⟩
    · intro fuel hf
      obtain ⟨f, rfl⟩ : ∃ f, fuel = f + 1 := ⟨fuel - 1, by omega⟩
      simp only [pumpLoop, herr]
    · simp
    · intro k m hk
      have hlt : k < msgs.length := by
        by_contra hge
        rw [List.getElem?_eq_none (by omega)] at hk
        cases hk
      exact hw k m hlt hk
  | succ n ih =>
    intro i logs hi hw
    have hlt : i < msgs.length := by omega
    have hget : msgs[i]? = some msgs[i] := List.getElem?_eq_getElem hlt
    have htake : msgs.take i ++ [msgs[i]] = msgs.take (i + 1) := by
      rw [List.take_succ, hget]; rfl
    cases hwr : dst.WriteMessage i msgs[i] with
    | some we =>
      refine ⟨{ err := some we, written := msgs.take i ++ [msgs[i]], reads := i + 1
                logs := logs ++ [⟨"debug", "websocket message"⟩] ++
                  [⟨"error", "failed to write websocket message"⟩] },
        ?_, Or.inr ⟨i, msgs[i], we, hget, hwr, hw, rfl, ?_, rfl⟩⟩
      · intro fuel hf
        obtain ⟨f, rfl⟩ : ∃ f, fuel = f + 1 := ⟨fuel - 1, by omega⟩
        simp only [pumpLoop, hread i _ hget, hwr]
      · exact htake
    | none =>
      have hw' : ∀ k m, k < i + 1 → msgs[k]? = some m → dst.WriteMessage k m = none := by
        intro k m hk hm
        by_cases hki : k = i
        · subst hki
          rw [hget] at hm
          cases hm
          exact hwr
        · exact hw k m (by omega) hm
      obtain ⟨res, hres, hprop⟩ :=
        ih (i + 1) (logs ++ [⟨"debug", "websocket message"⟩]) (by omega) hw'
      refine ⟨res, ?_, hprop⟩
      intro fuel hf
      obtain ⟨f, rfl⟩ : ∃ f, fuel = f + 1 := ⟨fuel - 1, by omega⟩
      simp only [pumpLoop, hread i _ hget, hwr]
      rw [htake]
      exact hres f (by omega)

/-- C10. Let the reads of `src` yield the messages `msgs` and then fail with `e`.
Then `pumpMessages` returns (with the same result for every bound on the number
of iterations above `msgs.length`), and its result is one of two. Either every
write succeeded: all of `msgs` were handed to `dst.WriteMessage`, in order and
unchanged, `src` was read `msgs.length + 1` times, and the returned error is
`e`. Or the write of the message number `j` is the first to fail, with error
`we`: the messages handed to `dst.WriteMessage` are the first `j + 1` of `msgs`
(all that were read), `src` was read `j + 1` times and no more, and the returned
error is `we`. In both cases the returned error is not `nil`. -/
theorem C10_pump_messages (src dst : Conn) (msgs : List Message) (e : ConnError)
    (hread : ∀ i m, msgs[i]? = some m → src.ReadMessage i = .ok m)
    (herr : src.ReadMessage msgs.length = .error e) :
    ∃ res, (∀ fuel, msgs.length < fuel → pumpMessages src dst fuel = some res)
      ∧ res.err ≠ none
      ∧ res.written = msgs.take res.reads
      ∧ ((res.err = some e ∧ res.written = msgs ∧ res.reads = msgs.length + 1
          ∧ ∀ k m, msgs[k]? = some m → dst.WriteMessage k m = none)
        ∨ (∃ j mj we, msgs[j]? = some mj ∧ dst.WriteMessage j mj = some we
          ∧ (∀ k m, k < j → msgs[k]? = some m → dst.WriteMessage k m = none)
          ∧ res.err = some we ∧ res.written = msgs.take (j + 1) ∧ res.reads = j + 1)) := by
  obtain ⟨res, hres, hprop⟩ :=
    pumpLoop_spec src dst msgs e hread herr msgs.length 0 [] (by omega)
      (fun k m hk => absurd hk (Nat.not_lt_zero k))
  refine ⟨res, fun fuel hf => hres fuel hf, ?_, ?_, hprop⟩
  · rcases hprop with ⟨h, -⟩ | ⟨j, mj, we, -, -, -, h, -⟩ <;> simp [h]
  · rcases hprop with ⟨-, hw, hr, -⟩ | ⟨j, mj, we, -, -, -, -, hw, hr⟩
    · rw [hw, hr]; simp
    · rw [hw, hr]

/-- C10, witness: two messages, then the peer closes. Into a destination that
takes everything both are written and the close error is returned; into a
destination whose second write fails both are handed over, the source is not
read a third time, and the write error is returned. -/
theorem C10_pump_messages_witness :
    (∃ res, pumpMessages exampleSource exampleSink 3 = some res
      ∧ res.err ≠ none
      ∧ res.written = exampleMessages.take res.reads)
    ∧ (∃ res, pumpMessages exampleSource brokenSink 3 = some res
      ∧ res.err ≠ none
      ∧ res.written = exampleMessages.take res.reads
      ∧ res.reads = 2) :=
  have hread : ∀ i m, exampleMessages[i]? = some m → exampleSource.ReadMessage i = .ok m := by
    intro i m h
    show (match exampleMessages[i]? with
      | some m => Except.ok m
      | none => Except.error _) = Except.ok m
    rw [h]
  match C10_pump_messages exampleSource exampleSink exampleMessages
      { text := "websocket: close 1000 (normal)", closeCode := some 1000 } hread rfl,
    C10_pump_messages exampleSource brokenSink exampleMessages
      { text := "websocket: close 1000 (normal)", closeCode := some 1000 } hread rfl with
  | ⟨res, hres, herr, hw, _⟩, ⟨res2, hres2, herr2, hw2, _⟩ =>
    ⟨⟨res, hres 3 (by decide), herr, hw⟩,
     ⟨res2, hres2 3 (by decide), herr2, hw2, by
        have h := hres2 3 (by decide)
        have h3 : pumpMessages exampleSource brokenSink 3 =
            some { err := some { text := "write tcp: broken pipe", closeCode := none }
                   written := exampleMessages, reads := 2
                   logs := [⟨"debug", "websocket message"⟩, ⟨"debug", "websocket message"⟩,
                     ⟨"error", "failed to write websocket message"⟩] } := by decide
        rw [h3] at h
        injection h with h
        rw [← h]⟩⟩

/-! ### C11: the three counters together -/

theorem ServeHTTP_counter_step (p : Proxy) (env : Env) (m : ProxyMetrics) (w : ResponseWriter)
    (r : Request) :
    ((ServeHTTP p env m w r).metrics.RequestCount = m.RequestCount
      ∧ (ServeHTTP p env m w r).metrics.ResponseCount = m.ResponseCount
      ∧ (ServeHTTP p env m w r).metrics.ErrorCount = m.ErrorCount)
    ∨ ((ServeHTTP p env m w r).metrics.RequestCount = m.RequestCount + 1
      ∧ (ServeHTTP p env m w r).metrics.ResponseCount = m.ResponseCount
      ∧ (ServeHTTP p env m w r).metrics.ErrorCount = m.ErrorCount)
    ∨ ((ServeHTTP p env m w r).metrics.RequestCount = m.RequestCount + 1
      ∧ (ServeHTTP p env m w r).metrics.ResponseCount = m.ResponseCount + 1
      ∧ (ServeHTTP p env m w r).metrics.ErrorCount = m.ErrorCount)
    ∨ ((ServeHTTP p env m w r).metrics.RequestCount = m.RequestCount + 1
      ∧ (ServeHTTP p env m w r).metrics.ResponseCount = m.ResponseCount
      ∧ (ServeHTTP p env m w r).metrics.ErrorCount = m.ErrorCount + 1) := by
  rcases ServeHTTP_cases p env m w r with h | h | h | h | h | h
  · rw [h.2.2]; exact Or.inl ⟨rfl, rfl, rfl⟩
  · rw [h.2.2.2]; exact Or.inr (Or.inr (Or.inr ⟨rfl, rfl, rfl⟩))
  · rw [h.2.2.2.2]; exact Or.inr (Or.inl ⟨rfl, rfl, rfl⟩)
  · rw [h.2.2.2.2.2]; exact Or.inr (Or.inr (Or.inr ⟨rfl, rfl, rfl⟩))
  · rw [h.2.2.2.2.2]; exact Or.inr (Or.inr (Or.inl ⟨rfl, rfl, rfl⟩))
  · rw [h.2.2.2.2.2]; exact Or.inr (Or.inl ⟨rfl, rfl, rfl⟩)

theorem serveAll_counter_invariant (p : Proxy) (reqs : List (Env × Request)) :
    ∀ m : ProxyMetrics,
      (serveAll p m reqs).ResponseCount + (serveAll p m reqs).ErrorCount
          - (m.ResponseCount + m.ErrorCount)
        ≤ (serveAll p m reqs).RequestCount - m.RequestCount := by
  induction reqs with
  | nil => intro m; simp [serveAll]
  | cons er rest ih =>
    intro m
    obtain ⟨env, r⟩ := er
    have hs := ServeHTTP_counter_step p env m freshWriter r
    have hr := ih (ServeHTTP p env m freshWriter r).metrics
    simp only [serveAll]
    omega

/-- C11, counterexample. The upgrade request whose method `http.NewRequest`
rejects is answered `502` where the outbound request is built, before the
upgrade headers are looked at, and `ErrorCount` goes from 0 to 1. The upgrade
request sent with the method `OPTIONS` is answered as a preflight and
`RequestCount` stays 0. -/
theorem C11_upgrade_request_counted_as_error :
    (badMethodUpgrade.Method ≠ MethodOptions
      ∧ isWebSocketRequest exampleToLower badMethodUpgrade = true
      ∧ (ServeHTTP exampleProxy badMethodEnv freshMetrics freshWriter
          badMethodUpgrade).metrics.RequestCount = 1
      ∧ (ServeHTTP exampleProxy badMethodEnv freshMetrics freshWriter
          badMethodUpgrade).metrics.ErrorCount = 1
      ∧ freshMetrics.ErrorCount = 0)
    ∧ (isWebSocketRequest exampleToLower preflightUpgrade = true
      ∧ (ServeHTTP exampleProxy exampleEnv freshMetrics freshWriter
          preflightUpgrade).metrics.RequestCount = 0
      ∧ freshMetrics.RequestCount = 0) :=
  ⟨⟨by decide, by decide, by decide, by decide, rfl⟩, ⟨by decide, by decide, rfl⟩⟩

/-- C11, amended. Starting from fresh counters, after every request of any finite
sequence `ResponseCount + ErrorCount ≤ RequestCount`. Every single call leaves
the three counters as they are, or adds 1 to `RequestCount` and to at most one
of `ResponseCount` and `ErrorCount` (1 to that one). A WebSocket upgrade request
that is not `OPTIONS` and whose outbound request `http.NewRequest` has built adds
1 to `RequestCount` and nothing to `ResponseCount` and `ErrorCount`, whatever the
dial does. When the dial fails, `http.Error` is called with the status code of
the upstream answer, or `502` when there is none: if that is a status that
`WriteHeader` takes as the final one (101, or 200 to 999, so also for `502`),
the client is sent that status, with the body `WebSocket connection failed` and
a line feed when the status allows a body; if it is an informational one (100
to 199 and not 101), the body goes out under the status 200; if it is below 100
or above 999, `WriteHeader` panics and nothing is sent. -/
theorem C11_counter_invariant (p : Proxy) :
    (∀ (reqs : List (Env × Request)) (n : Nat),
      (serveAll p freshMetrics (reqs.take n)).ResponseCount
          + (serveAll p freshMetrics (reqs.take n)).ErrorCount
        ≤ (serveAll p freshMetrics (reqs.take n)).RequestCount)
    ∧ (∀ (env : Env) (m : ProxyMetrics) (w : ResponseWriter) (r : Request),
      ((ServeHTTP p env m w r).metrics.RequestCount = m.RequestCount
        ∧ (ServeHTTP p env m w r).metrics.ResponseCount = m.ResponseCount
        ∧ (ServeHTTP p env m w r).metrics.ErrorCount = m.ErrorCount)
      ∨ ((ServeHTTP p env m w r).metrics.RequestCount = m.RequestCount + 1
        ∧ (ServeHTTP p env m w r).metrics.ResponseCount = m.ResponseCount
        ∧ (ServeHTTP p env m w r).metrics.ErrorCount = m.ErrorCount)
      ∨ ((ServeHTTP p env m w r).metrics.RequestCount = m.RequestCount + 1
        ∧ (ServeHTTP p env m w r).metrics.ResponseCount = m.ResponseCount + 1
        ∧ (ServeHTTP p env m w r).metrics.ErrorCount = m.ErrorCount)
      ∨ ((ServeHTTP p env m w r).metrics.RequestCount = m.RequestCount + 1
        ∧ (ServeHTTP p env m w r).metrics.ResponseCount = m.ResponseCount
        ∧ (ServeHTTP p env m w r).metrics.ErrorCount = m.ErrorCount + 1))
    ∧ (∀ (env : Env) (m : ProxyMetrics) (w : ResponseWriter) (r : Request),
      r.Method ≠ MethodOptions → env.newRequestErr = none →
        isWebSocketRequest env.unicodeToLower r = true →
        (ServeHTTP p env m w r).metrics.RequestCount = m.RequestCount + 1
        ∧ (ServeHTTP p env m w r).metrics.ResponseCount = m.ResponseCount
        ∧ (ServeHTTP p env m w r).metrics.ErrorCount = m.ErrorCount)
    ∧ (∀ (env : Env) (m : ProxyMetrics) (r : Request) (e : String) (code : Option Int),
      r.Method ≠ MethodOptions → env.newRequestErr = none →
        isWebSocketRequest env.unicodeToLower r = true →
        env.dialErr = some (e, code) →
        (finalStatus (code.getD StatusBadGateway) →
          (ServeHTTP p env m freshWriter r).w.status = some (code.getD StatusBadGateway)
          ∧ (bodyAllowedForStatus (code.getD StatusBadGateway) = true →
            (ServeHTTP p env m freshWriter r).w.body = "WebSocket connection failed\n"))
        ∧ (100 ≤ code.getD StatusBadGateway ∧ code.getD StatusBadGateway ≤ 199
            ∧ code.getD StatusBadGateway ≠ StatusSwitchingProtocols →
          (ServeHTTP p env m freshWriter r).w.status = some StatusOK
          ∧ (ServeHTTP p env m freshWriter r).w.body = "WebSocket connection failed\n")
        ∧ (code.getD StatusBadGateway < 100 ∨ 999 < code.getD StatusBadGateway →
          (ServeHTTP p env m freshWriter r).w.panicked = true
          ∧ (ServeHTTP p env m freshWriter r).w.status = none
          ∧ (ServeHTTP p env m freshWriter r).w.body = "")) := by
  refine ⟨?_, ServeHTTP_counter_step p, ?_, ?_⟩
  · intro reqs n
    have h := serveAll_counter_invariant p (reqs.take n) freshMetrics
    have h0 : freshMetrics.RequestCount = 0 ∧ freshMetrics.ResponseCount = 0
        ∧ freshMetrics.ErrorCount = 0 := ⟨rfl, rfl, rfl⟩
    omega
  · intro env m w r hopt hnew hws
    rw [(ServeHTTP_webSocket p env m w r hopt hnew hws).1]
    exact ⟨rfl, rfl, rfl⟩
  · intro env m r e code hopt hnew hws hdial
    have hsec := setSecurityHeaders_status freshWriter r
    have hw : (ServeHTTP p env m freshWriter r).w =
        httpError (setSecurityHeaders freshWriter r) "WebSocket connection failed"
          (code.getD StatusBadGateway) := by
      cases code <;> simp [ServeHTTP, handlePreflight, hopt, hnew, hws, handleWebSocket, hdial]
    rw [hw]
    have hs : (setSecurityHeaders freshWriter r).status = none := by rw [hsec.1]; rfl
    have hb : (setSecurityHeaders freshWriter r).body = "" := by rw [hsec.2]; rfl
    exact ⟨fun hf => httpError_fresh _ _ _ hs hb hf,
      fun hc => (httpError_informational _ _ _ hs hb hc).2,
      fun hc => httpError_invalid _ _ _ hs hb hc⟩

/-- C11, witness: the upgrade request `GET /socket?room=7` when the dial is
refused. -/
theorem C11_counter_invariant_witness :
    (ServeHTTP exampleProxy dialFailedEnv freshMetrics freshWriter
        upgradeRequest).metrics.RequestCount = 0 + 1
    ∧ (ServeHTTP exampleProxy dialFailedEnv freshMetrics freshWriter
        upgradeRequest).metrics.ResponseCount = 0
    ∧ (ServeHTTP exampleProxy dialFailedEnv freshMetrics freshWriter
        upgradeRequest).metrics.ErrorCount = 0
    ∧ (ServeHTTP exampleProxy dialFailedEnv freshMetrics freshWriter upgradeRequest).w.status
        = some 502
    ∧ (ServeHTTP exampleProxy dialFailedEnv freshMetrics freshWriter upgradeRequest).w.body
        = "WebSocket connection failed\n" :=
  have h := C11_counter_invariant exampleProxy
  have hm := h.2.2.1 dialFailedEnv freshMetrics freshWriter upgradeRequest
    (by decide) rfl (by decide)
  have hd := h.2.2.2 dialFailedEnv freshMetrics upgradeRequest
    "dial tcp 127.0.0.1:3000: connect: connection refused" none (by decide) rfl (by decide) rfl
  have hf := hd.1 (by decide)
  ⟨hm.1, hm.2.1, hm.2.2, hf.1, hf.2 (by decide)⟩

end Proxima
